import Mathlib

/-!
# Immediate command list (Vulkan backend): ring of command buffers, flush protocol

Shallow embedding of `source/vulkan/vulkan_impl_command_list_immediate.cpp`.

* Vulkan handles are numbers, `VK_NULL_HANDLE` is `0`.
* A pointer to an array is the array it points at (`none` is `nullptr`).
* The driver is an environment: every embedded function receives the result
  code of each driver entry point it may call and returns, next to its C++
  result and the new member values, the sequence of calls it issued.
* `assert(...)` is compiled out of release builds; the embedding follows the
  release control flow and the asserted conditions are stated as predicates.
-/

namespace reshade.vulkan

/-! ## Handles, result codes, constants -/

abbrev Handle := Nat

abbrev VkResult := Int

def VK_NULL_HANDLE : Handle := 0

def VK_SUCCESS : VkResult := 0

def VK_NOT_READY : VkResult := 1

def VK_TRUE : Nat := 1

def UINT64_MAX : Nat := 2 ^ 64 - 1

def VK_COMMAND_POOL_CREATE_RESET_COMMAND_BUFFER_BIT : Nat := 2

def VK_COMMAND_BUFFER_LEVEL_PRIMARY : Nat := 0

def VK_COMMAND_BUFFER_USAGE_ONE_TIME_SUBMIT_BIT : Nat := 1

def VK_FENCE_CREATE_SIGNALED_BIT : Nat := 1

def VK_DESCRIPTOR_TYPE_SAMPLER : Nat := 0

def VK_DESCRIPTOR_TYPE_COMBINED_IMAGE_SAMPLER : Nat := 1

def VK_DESCRIPTOR_TYPE_SAMPLED_IMAGE : Nat := 2

def VK_DESCRIPTOR_TYPE_STORAGE_IMAGE : Nat := 3

def VK_DESCRIPTOR_TYPE_UNIFORM_BUFFER : Nat := 6

def VK_IMAGE_LAYOUT_GENERAL : Nat := 1

def VK_IMAGE_LAYOUT_SHADER_READ_ONLY_OPTIMAL : Nat := 5

/-- Number of slots of the ring: `static constexpr uint32_t NUM_COMMAND_FRAMES = 4`
(`d3d12_impl_command_list_immediate.hpp`, line 14); the header of the Vulkan class
is not among the sources at hand and the specification gives the same `N = 4`. -/
def NUM_COMMAND_FRAMES : Nat := 4

/-- Element `xs[i]` of a member array; the cursor never leaves `[0, NUM_COMMAND_FRAMES)`,
so the default is not reached on the arrays of a constructed object. -/
def idx (xs : List Handle) (i : Nat) : Handle := xs.getD i VK_NULL_HANDLE

/-- Assignment `xs[i] = h` to a member array. -/
def setIdx (xs : List Handle) (i : Nat) (h : Handle) : List Handle := xs.set i h

/-! ## Data model -/

/-- The fields of `VkSubmitInfo` that the immediate command list reads or writes. -/
structure VkSubmitInfo where
  waitSemaphoreCount : Nat := 0
  pWaitSemaphores : Option (List Handle) := none
  pWaitDstStageMask : Option (List Nat) := none
  commandBufferCount : Nat := 0
  pCommandBuffers : Option (List Handle) := none
  signalSemaphoreCount : Nat := 0
  pSignalSemaphores : Option (List Handle) := none
  deriving DecidableEq, Repr

/-- Structure `VkDescriptorImageInfo`; a field the code leaves unwritten is `none`. -/
structure VkDescriptorImageInfo where
  sampler : Option Handle := none
  imageView : Option Handle := none
  imageLayout : Option Nat := none
  deriving DecidableEq, Repr

/-- One element of the array `update.descriptors`, read as `api::sampler`
(`sampler`), `api::resource_view` (`view`) or `api::sampler_with_resource_view`
(both). -/
structure api_descriptor where
  sampler : Handle
  view : Handle
  deriving DecidableEq, Repr

/-- Structure `VkWriteDescriptorSet`. -/
structure VkWriteDescriptorSet where
  dstSet : Handle := VK_NULL_HANDLE
  dstBinding : Nat := 0
  dstArrayElement : Nat := 0
  descriptorCount : Nat := 0
  descriptorType : Nat := 0
  pImageInfo : Option (List VkDescriptorImageInfo) := none
  pBufferInfo : Option (List api_descriptor) := none
  pTexelBufferView : Option (List api_descriptor) := none
  deriving DecidableEq, Repr

/-- Calls that leave the immediate command list: Vulkan entry points of the
dispatch table and the two methods of the base class `command_list_impl` that
`push_descriptors` forwards to. An out-parameter carries what the callee wrote. -/
inductive Call where
  | CreateCommandPool (device : Handle) (flags queueFamilyIndex : Nat) (pCommandPool : Handle)
  | AllocateCommandBuffers (device commandPool : Handle) (level commandBufferCount : Nat)
      (pCommandBuffers : List Handle)
  | SetDebugUtilsObjectNameEXT (device objectHandle : Handle) (index : Nat)
  | CreateFence (device : Handle) (flags : Nat) (pFence : Handle)
  | CreateSemaphore (device : Handle) (pSemaphore : Handle)
  | CreateDescriptorPool (device : Handle) (maxSets : Nat) (pPoolSizes : List (Nat × Nat))
      (pDescriptorPool : Handle)
  | BeginCommandBuffer (commandBuffer : Handle) (flags : Nat)
  | EndCommandBuffer (commandBuffer : Handle)
  | ResetFences (device : Handle) (pFences : List Handle)
  | QueueSubmit (queue : Handle) (pSubmits : List VkSubmitInfo) (fence : Handle)
  | GetFenceStatus (device fence : Handle)
  | WaitForFences (device : Handle) (pFences : List Handle) (waitAll timeout : Nat)
  | ResetDescriptorPool (device descriptorPool : Handle) (flags : Nat)
  | AllocateDescriptorSets (device descriptorPool : Handle) (descriptorSetCount : Nat)
      (pSetLayouts : List Handle) (pDescriptorSets : Handle)
  | UpdateDescriptorSets (device : Handle) (pDescriptorWrites : List VkWriteDescriptorSet)
  | bind_descriptor_tables (stages : Nat) (layout : Handle) (first count : Nat)
      (tables : List Handle)
  | base_push_descriptors (stages : Nat) (layout : Handle) (layout_param : Nat)
  deriving DecidableEq, Repr

/-- A call together with the result code the callee returned (`VK_SUCCESS` for
the `void` ones). -/
structure Event where
  call : Call
  result : VkResult
  deriving DecidableEq, Repr

/-- The part of `device_impl` the immediate command list looks at: the device
handle `_orig` and two capabilities of the dispatch table. `KHR_push_descriptor`
is `vk.KHR_push_descriptor` (false also when `VK_KHR_push_descriptor` is not
compiled in); `SetDebugUtilsObjectNameEXT` tells whether that entry point is
non-null. -/
structure device_impl where
  _orig : Handle
  KHR_push_descriptor : Bool
  SetDebugUtilsObjectNameEXT : Bool
  deriving DecidableEq, Repr

/-- Members of `command_list_immediate_impl` (with `_orig` and `_has_commands`
of the base class). `self` is the address `this`; the thread-local
`s_last_immediate_command_list` is carried along as the address it holds. -/
structure command_list_immediate_impl where
  self : Nat
  _device_impl : device_impl
  _orig : Handle
  _has_commands : Bool
  _parent_queue : Handle
  _cmd_index : Nat
  _cmd_pool : Handle
  _cmd_buffers : List Handle
  _cmd_fences : List Handle
  _cmd_semaphores : List Handle
  _transient_descriptor_pool : List Handle
  s_last_immediate_command_list : Option Nat
  deriving DecidableEq, Repr

/-! ## flush -/

/-- Result codes of the entry points one `flush` may call; each is called at
most once per `flush`. -/
structure FlushDriver where
  EndCommandBuffer : VkResult
  ResetFences : VkResult
  QueueSubmit : VkResult
  GetFenceStatus : VkResult
  WaitForFences : VkResult
  ResetDescriptorPool : VkResult
  BeginCommandBuffer : VkResult
  deriving DecidableEq, Repr

/-- What a `flush` leaves behind: its return value, the members, the caller's
`semaphore_info` (passed by reference), the calls issued and the log lines. -/
structure FlushResult where
  ret : Bool
  state : command_list_immediate_impl
  semaphore_info : VkSubmitInfo
  trace : List Event
  log : List String
  deriving DecidableEq, Repr

/-- Local `submit_info` of `flush` (lines 246-258). -/
def flush_submit_info (s : command_list_immediate_impl) (semaphore_info : VkSubmitInfo) :
    VkSubmitInfo :=
  let submit_info : VkSubmitInfo :=
    { waitSemaphoreCount := semaphore_info.waitSemaphoreCount
      pWaitSemaphores := semaphore_info.pWaitSemaphores
      pWaitDstStageMask := semaphore_info.pWaitDstStageMask
      commandBufferCount := 1
      pCommandBuffers := some [s._orig] }
  if semaphore_info.waitSemaphoreCount ≠ 0 ∨ semaphore_info.signalSemaphoreCount ≠ 0 then
    { submit_info with
      signalSemaphoreCount := 1
      pSignalSemaphores := some [idx s._cmd_semaphores s._cmd_index] }
  else
    submit_info

/-- Rotation part of `flush` (lines 272-305), entered after a successful submit. -/
def flush_rotate (s : command_list_immediate_impl) (semaphore_info submit_info : VkSubmitInfo)
    (d : FlushDriver) (trace : List Event) : FlushResult :=
  let semaphore_info :=
    { semaphore_info with
      waitSemaphoreCount := submit_info.signalSemaphoreCount
      pWaitSemaphores := submit_info.pSignalSemaphores }
  let s := { s with _cmd_index := ((s._cmd_index + 1) % 2 ^ 32) % NUM_COMMAND_FRAMES }
  let dev := s._device_impl._orig
  let next_fence := idx s._cmd_fences s._cmd_index
  let trace := trace ++ [⟨.GetFenceStatus dev next_fence, d.GetFenceStatus⟩]
  let trace :=
    if d.GetFenceStatus = VK_NOT_READY then
      trace ++ [⟨.WaitForFences dev [next_fence] VK_TRUE UINT64_MAX, d.WaitForFences⟩]
    else trace
  let trace :=
    if !s._device_impl.KHR_push_descriptor then
      let next_pool := idx s._transient_descriptor_pool s._cmd_index
      trace ++ [⟨.ResetDescriptorPool dev next_pool 0, d.ResetDescriptorPool⟩]
    else trace
  let next_buffer := idx s._cmd_buffers s._cmd_index
  let trace := trace ++
    [⟨.BeginCommandBuffer next_buffer VK_COMMAND_BUFFER_USAGE_ONE_TIME_SUBMIT_BIT,
      d.BeginCommandBuffer⟩]
  if d.BeginCommandBuffer ≠ VK_SUCCESS then
    ⟨false, s, semaphore_info, trace, ["Failed to reset immediate command list!"]⟩
  else
    ⟨true, { s with _orig := next_buffer }, semaphore_info, trace, []⟩

/-- Embedding of `command_list_immediate_impl::flush(VkSubmitInfo &semaphore_info)`
(lines 223-306). -/
def flush (s : command_list_immediate_impl) (semaphore_info : VkSubmitInfo) (d : FlushDriver) :
    FlushResult :=
  let s := { s with s_last_immediate_command_list := some s.self }
  if !s._has_commands then
    ⟨true, s, semaphore_info, [], []⟩
  else
    let s := { s with _has_commands := false }
    let begin_flags := VK_COMMAND_BUFFER_USAGE_ONE_TIME_SUBMIT_BIT
    let trace : List Event := [⟨.EndCommandBuffer s._orig, d.EndCommandBuffer⟩]
    if d.EndCommandBuffer ≠ VK_SUCCESS then
      ⟨false, s, semaphore_info,
        trace ++ [⟨.BeginCommandBuffer s._orig begin_flags, d.BeginCommandBuffer⟩],
        ["Failed to close immediate command list!"]⟩
    else
      let submit_info := flush_submit_info s semaphore_info
      let dev := s._device_impl._orig
      let fence := idx s._cmd_fences s._cmd_index
      let trace := trace ++
        [⟨.ResetFences dev [fence], d.ResetFences⟩,
         ⟨.QueueSubmit s._parent_queue [submit_info] fence, d.QueueSubmit⟩]
      if d.QueueSubmit ≠ VK_SUCCESS then
        ⟨false, s, semaphore_info,
          trace ++ [⟨.BeginCommandBuffer s._orig begin_flags, d.BeginCommandBuffer⟩],
          ["Failed to submit immediate command list!"]⟩
      else
        flush_rotate s semaphore_info submit_info d trace

/-- Condition of `assert(_orig != VK_NULL_HANDLE)` (line 231), checked in debug
builds once `flush` has found pending commands. -/
def flush_assert_orig (s : command_list_immediate_impl) : Prop :=
  s._has_commands = true → s._orig ≠ VK_NULL_HANDLE

instance (s : command_list_immediate_impl) : Decidable (flush_assert_orig s) :=
  inferInstanceAs (Decidable (_ → _))

/-- Condition of the `assert` of line 276 on the `semaphore_info` a `flush` hands
back after a successful submit: a stage mask is there unless nothing is waited
on. -/
def flush_assert_wait_stage (semaphore_info : VkSubmitInfo) : Prop :=
  semaphore_info.pWaitDstStageMask ≠ none ∨ semaphore_info.waitSemaphoreCount = 0

instance (semaphore_info : VkSubmitInfo) : Decidable (flush_assert_wait_stage semaphore_info) :=
  inferInstanceAs (Decidable (_ ∨ _))

/-- The calls of a trace, without their result codes. -/
def calls (t : List Event) : List Call := t.map Event.call

/-- What a `flush_and_wait` leaves behind: return value, members, calls, log lines. -/
structure FlushAndWaitResult where
  ret : Bool
  state : command_list_immediate_impl
  trace : List Event
  log : List String
  deriving DecidableEq, Repr

/-- Embedding of `command_list_immediate_impl::flush_and_wait()` (lines 307-321);
`wait` is the result of the `WaitForFences` of line 320. -/
def flush_and_wait (s : command_list_immediate_impl) (d : FlushDriver) (wait : VkResult) :
    FlushAndWaitResult :=
  if !s._has_commands then
    ⟨true, s, [], []⟩
  else
    let cmd_index_to_wait_on := s._cmd_index
    let submit_info : VkSubmitInfo := {}
    let r := flush s submit_info d
    if !r.ret then
      ⟨false, r.state, r.trace, r.log⟩
    else
      ⟨wait == VK_SUCCESS, r.state,
        r.trace ++
          [⟨.WaitForFences r.state._device_impl._orig
              [idx r.state._cmd_fences cmd_index_to_wait_on] VK_TRUE UINT64_MAX, wait⟩],
        r.log⟩

/-- Modelled from the spec: the command-recording methods of the base class
`command_list_impl` are not part of the sources at hand; recording a command
writes into the active handle `_orig` and sets the pending-command flag
(section 4.2 (b)). -/
def record (s : command_list_immediate_impl) : command_list_immediate_impl :=
  { s with _has_commands := true }

/-! ## Construction -/

/-- What the driver answers during construction: result code and the handle (or
handles) written through the out-parameter, per slot where the call is made in
the loop. -/
structure CtorDriver where
  CreateCommandPool : VkResult × Handle
  AllocateCommandBuffers : VkResult × List Handle
  SetDebugUtilsObjectNameEXT : Nat → VkResult
  CreateFence : Nat → VkResult × Handle
  CreateSemaphore : Nat → VkResult × Handle
  CreateDescriptorPool : Nat → VkResult × Handle
  BeginCommandBuffer : VkResult

/-- Members, calls and log lines at some point of the constructor. -/
structure CtorResult where
  state : command_list_immediate_impl
  trace : List Event
  log : List String
  deriving DecidableEq, Repr

/-- Outcome of one pass through the body of the constructor's loop: go on with
the next slot, or `return` from the constructor. -/
inductive CtorFlow where
  | next (a : CtorResult)
  | ret (a : CtorResult)
  deriving DecidableEq, Repr

/-- Sizes of a transient descriptor pool (lines 73-79). -/
def pool_sizes : List (Nat × Nat) :=
  [ (VK_DESCRIPTOR_TYPE_SAMPLER, 128),
    (VK_DESCRIPTOR_TYPE_COMBINED_IMAGE_SAMPLER, 1024),
    (VK_DESCRIPTOR_TYPE_SAMPLED_IMAGE, 1024),
    (VK_DESCRIPTOR_TYPE_STORAGE_IMAGE, 512),
    (VK_DESCRIPTOR_TYPE_UNIFORM_BUFFER, 128) ]

/-- Body of the constructor's loop for slot `i` (lines 38-90). The patch of the
loader dispatch pointer of line 39 is a raw memory write and leaves no trace. -/
def ctor_slot (d : CtorDriver) (i : Nat) (a : CtorResult) : CtorFlow :=
  let device := a.state._device_impl
  let a : CtorResult :=
    if device.SetDebugUtilsObjectNameEXT then
      { a with
        trace := a.trace ++
          [⟨.SetDebugUtilsObjectNameEXT device._orig (idx a.state._cmd_buffers i) i,
            d.SetDebugUtilsObjectNameEXT i⟩] }
    else a
  let a : CtorResult :=
    { a with
      state := { a.state with _cmd_fences := setIdx a.state._cmd_fences i (d.CreateFence i).2 }
      trace := a.trace ++
        [⟨.CreateFence device._orig VK_FENCE_CREATE_SIGNALED_BIT (d.CreateFence i).2,
          (d.CreateFence i).1⟩] }
  if (d.CreateFence i).1 ≠ VK_SUCCESS then .ret a
  else
    let a : CtorResult :=
      { a with
        state :=
          { a.state with
            _cmd_semaphores := setIdx a.state._cmd_semaphores i (d.CreateSemaphore i).2 }
        trace := a.trace ++
          [⟨.CreateSemaphore device._orig (d.CreateSemaphore i).2, (d.CreateSemaphore i).1⟩] }
    if (d.CreateSemaphore i).1 ≠ VK_SUCCESS then .ret a
    else if !device.KHR_push_descriptor then
      let a : CtorResult :=
        { a with
          state :=
            { a.state with
              _transient_descriptor_pool :=
                setIdx a.state._transient_descriptor_pool i (d.CreateDescriptorPool i).2 }
          trace := a.trace ++
            [⟨.CreateDescriptorPool device._orig 32 pool_sizes (d.CreateDescriptorPool i).2,
              (d.CreateDescriptorPool i).1⟩] }
      if (d.CreateDescriptorPool i).1 ≠ VK_SUCCESS then
        .next { a with log := a.log ++ ["Failed to create transient descriptor pool!"] }
      else .next a
    else .next a

/-- The loop `for (uint32_t i = 0; i < NUM_COMMAND_FRAMES; ++i)` of the
constructor, with `n` passes left starting at slot `i`. -/
def ctor_slots (d : CtorDriver) : Nat → Nat → CtorResult → CtorFlow
  | 0, _, a => .next a
  | n + 1, i, a =>
    match ctor_slot d i a with
    | .ret a => .ret a
    | .next a => ctor_slots d n (i + 1) a

/-- Modelled from the spec: the member declarations of the Vulkan header are not
among the sources at hand. Members before the constructor body runs: `_orig` is
`VK_NULL_HANDLE` and `_parent_queue` is `queue` (initialisers of lines 16-17); the
ring cursor starts at slot `0` and no command is pending (sections 3 and 4.1, as
the default member initialisers of the D3D12 header have it); the handle members
are null. `last` is what the thread-local pointer held before. -/
def ctor_init (self : Nat) (device : device_impl) (queue : Handle) (last : Option Nat) :
    command_list_immediate_impl :=
  { self := self
    _device_impl := device
    _orig := VK_NULL_HANDLE
    _has_commands := false
    _parent_queue := queue
    _cmd_index := 0
    _cmd_pool := VK_NULL_HANDLE
    _cmd_buffers := List.replicate NUM_COMMAND_FRAMES VK_NULL_HANDLE
    _cmd_fences := List.replicate NUM_COMMAND_FRAMES VK_NULL_HANDLE
    _cmd_semaphores := List.replicate NUM_COMMAND_FRAMES VK_NULL_HANDLE
    _transient_descriptor_pool := List.replicate NUM_COMMAND_FRAMES VK_NULL_HANDLE
    s_last_immediate_command_list := last }

/-- Embedding of the constructor
`command_list_immediate_impl(device, queue_family_index, queue)` (lines 15-104). -/
def construct (self : Nat) (device : device_impl) (queue_family_index : Nat) (queue : Handle)
    (last : Option Nat) (d : CtorDriver) : CtorResult :=
  let s := ctor_init self device queue last
  let s := { s with _cmd_pool := d.CreateCommandPool.2 }
  let trace : List Event :=
    [⟨.CreateCommandPool device._orig VK_COMMAND_POOL_CREATE_RESET_COMMAND_BUFFER_BIT
        queue_family_index d.CreateCommandPool.2, d.CreateCommandPool.1⟩]
  if d.CreateCommandPool.1 ≠ VK_SUCCESS then ⟨s, trace, []⟩
  else
    let s := { s with _cmd_buffers := d.AllocateCommandBuffers.2 }
    let trace := trace ++
      [⟨.AllocateCommandBuffers device._orig s._cmd_pool VK_COMMAND_BUFFER_LEVEL_PRIMARY
          NUM_COMMAND_FRAMES d.AllocateCommandBuffers.2, d.AllocateCommandBuffers.1⟩]
    if d.AllocateCommandBuffers.1 ≠ VK_SUCCESS then ⟨s, trace, []⟩
    else
      match ctor_slots d NUM_COMMAND_FRAMES 0 ⟨s, trace, []⟩ with
      | .ret a => a
      | .next a =>
        let s := a.state
        let trace := a.trace ++
          [⟨.BeginCommandBuffer (idx s._cmd_buffers s._cmd_index)
              VK_COMMAND_BUFFER_USAGE_ONE_TIME_SUBMIT_BIT, d.BeginCommandBuffer⟩]
        if d.BeginCommandBuffer ≠ VK_SUCCESS then ⟨s, trace, a.log⟩
        else
          ⟨{ s with
              _orig := idx s._cmd_buffers s._cmd_index
              s_last_immediate_command_list := some s.self },
            trace, a.log⟩

/-- Every call whose result the constructor checks returned `VK_SUCCESS`. -/
def CtorDriver.all_checked_ok (d : CtorDriver) : Prop :=
  d.CreateCommandPool.1 = VK_SUCCESS ∧ d.AllocateCommandBuffers.1 = VK_SUCCESS ∧
    (∀ i, i < NUM_COMMAND_FRAMES → (d.CreateFence i).1 = VK_SUCCESS) ∧
    (∀ i, i < NUM_COMMAND_FRAMES → (d.CreateSemaphore i).1 = VK_SUCCESS) ∧
    d.BeginCommandBuffer = VK_SUCCESS

instance (d : CtorDriver) : Decidable d.all_checked_ok :=
  inferInstanceAs (Decidable (_ ∧ _ ∧ _ ∧ _ ∧ _))

/-- The four kinds of allocation whose failure makes the constructor return. -/
def Call.isCheckedAllocation : Call → Bool
  | .CreateCommandPool .. => true
  | .AllocateCommandBuffers .. => true
  | .CreateFence .. => true
  | .CreateSemaphore .. => true
  | _ => false

/-- Any of the five kinds of allocation the constructor performs. -/
def Call.isAllocation : Call → Bool
  | .CreateCommandPool .. => true
  | .AllocateCommandBuffers .. => true
  | .CreateFence .. => true
  | .CreateSemaphore .. => true
  | .CreateDescriptorPool .. => true
  | _ => false

/-- Recognises `vkBeginCommandBuffer`. -/
def Call.isBegin : Call → Bool
  | .BeginCommandBuffer .. => true
  | _ => false

/-! ## push_descriptors -/

/-- Modelled from the spec: `api::descriptor_type` is declared outside the
sources at hand; its members here are the `case` labels of lines 149-182 (sampler,
combined image-sampler, image views, texel buffer views, buffer infos) plus one
member that falls to `default`. -/
inductive descriptor_type where
  | sampler
  | sampler_with_resource_view
  | texture_shader_resource_view
  | texture_unordered_access_view
  | buffer_shader_resource_view
  | buffer_unordered_access_view
  | constant_buffer
  | shader_storage_buffer
  | acceleration_structure
  deriving DecidableEq, Repr

/-- Structure `api::descriptor_table_update`. -/
structure descriptor_table_update where
  table : Handle
  binding : Nat
  array_offset : Nat
  count : Nat
  type : descriptor_type
  descriptors : List api_descriptor
  deriving DecidableEq, Repr

/-- What `push_descriptors` gets from outside: `convert_descriptor_type` of
`vulkan_impl_type_convert.hpp`, the `set_layouts` table of the pipeline layout
(line 192), and the answer of `vkAllocateDescriptorSets`. -/
structure PushEnv where
  convert_descriptor_type : descriptor_type → Nat
  set_layouts : Handle → Nat → Handle
  AllocateDescriptorSets : VkResult × Handle

/-- Calls and log lines of one `push_descriptors`. -/
structure PushResult where
  trace : List Event
  log : List String
  deriving DecidableEq, Repr

/-- Element `update.descriptors[k]`. -/
def descriptor_at (update : descriptor_table_update) (k : Nat) : api_descriptor :=
  update.descriptors.getD k ⟨VK_NULL_HANDLE, VK_NULL_HANDLE⟩

/-- The `switch (update.type)` of lines 147-188 filling the payload pointers of
`write`. -/
def push_descriptors_payload (update : descriptor_table_update) (write : VkWriteDescriptorSet) :
    VkWriteDescriptorSet :=
  match update.type with
  | .sampler =>
    { write with
      pImageInfo := some ((List.range update.count).map fun k =>
        { sampler := some (descriptor_at update k).sampler }) }
  | .sampler_with_resource_view =>
    { write with
      pImageInfo := some ((List.range update.count).map fun k =>
        { sampler := some (descriptor_at update k).sampler
          imageView := some (descriptor_at update k).view
          imageLayout := some VK_IMAGE_LAYOUT_SHADER_READ_ONLY_OPTIMAL }) }
  | .texture_shader_resource_view =>
    { write with
      pImageInfo := some ((List.range update.count).map fun k =>
        { imageView := some (descriptor_at update k).view
          imageLayout := some VK_IMAGE_LAYOUT_SHADER_READ_ONLY_OPTIMAL }) }
  | .texture_unordered_access_view =>
    { write with
      pImageInfo := some ((List.range update.count).map fun k =>
        { imageView := some (descriptor_at update k).view
          imageLayout := some VK_IMAGE_LAYOUT_GENERAL }) }
  | .buffer_shader_resource_view => { write with pTexelBufferView := some update.descriptors }
  | .buffer_unordered_access_view => { write with pTexelBufferView := some update.descriptors }
  | .constant_buffer => { write with pBufferInfo := some update.descriptors }
  | .shader_storage_buffer => { write with pBufferInfo := some update.descriptors }
  | .acceleration_structure => write

/-- Embedding of `command_list_immediate_impl::push_descriptors` (lines 125-208).
`stages` is the `api::shader_stage` mask, `layout` the pipeline-layout handle. -/
def push_descriptors (s : command_list_immediate_impl) (env : PushEnv) (stages : Nat)
    (layout : Handle) (layout_param : Nat) (update : descriptor_table_update) : PushResult :=
  if s._device_impl.KHR_push_descriptor then
    ⟨[⟨.base_push_descriptors stages layout layout_param, VK_SUCCESS⟩], []⟩
  else if update.count = 0 then
    ⟨[], []⟩
  else
    let write : VkWriteDescriptorSet :=
      { dstBinding := update.binding
        dstArrayElement := update.array_offset
        descriptorCount := update.count
        descriptorType := env.convert_descriptor_type update.type }
    let write := push_descriptors_payload update write
    let set_layout := env.set_layouts layout layout_param
    let device := s._device_impl._orig
    let write := { write with dstSet := env.AllocateDescriptorSets.2 }
    let trace : List Event :=
      [⟨.AllocateDescriptorSets device (idx s._transient_descriptor_pool s._cmd_index) 1
          [set_layout] env.AllocateDescriptorSets.2, env.AllocateDescriptorSets.1⟩]
    if env.AllocateDescriptorSets.1 ≠ VK_SUCCESS then
      ⟨trace, ["Failed to allocate %u transient descriptor handle(s) of type %u!"]⟩
    else
      ⟨trace ++
        [⟨.UpdateDescriptorSets device [write], VK_SUCCESS⟩,
         ⟨.bind_descriptor_tables stages layout layout_param 1 [write.dstSet], VK_SUCCESS⟩],
        []⟩

/-- Conditions of the three `assert`s of `push_descriptors` (lines 138, 186,
190), checked in debug builds on the path without push descriptors. -/
def push_descriptors_asserts (update : descriptor_table_update) : Prop :=
  update.table = 0 ∧ update.type ≠ .acceleration_structure ∧
    update.binding = 0 ∧ update.array_offset = 0

instance (update : descriptor_table_update) : Decidable (push_descriptors_asserts update) :=
  inferInstanceAs (Decidable (_ ∧ _ ∧ _ ∧ _))

/-! ## Fences as the driver keeps them -/

/-- State of a fence: signaled, reset and not handed to a submission, or handed
to a submission whose completion has not been observed (in flight). -/
inductive FenceState where
  | signaled
  | unsignaled
  | in_flight
  deriving DecidableEq, Repr

abbrev FenceMap := Handle → FenceState

/-- Effect of one call on the fences, read off its result code: a fence created
with success starts as its flag says; a reset that succeeds leaves its fences
unsignaled; a submit that succeeds puts its fence in flight; a status query that
answers `VK_SUCCESS` has seen the fence signaled; a wait that returns
`VK_SUCCESS` has seen its fences signaled. With any other result code
(`VK_NOT_READY` from the query, or an error such as a lost device from any of
them) the call leaves the fences as they were. -/
def fence_step (fm : FenceMap) (e : Event) : FenceMap :=
  match e.call with
  | .CreateFence _ flags pFence =>
    if e.result = VK_SUCCESS then
      Function.update fm pFence
        (if flags = VK_FENCE_CREATE_SIGNALED_BIT then .signaled else .unsignaled)
    else fm
  | .ResetFences _ pFences =>
    if e.result = VK_SUCCESS then
      pFences.foldl (fun m f => Function.update m f .unsignaled) fm
    else fm
  | .QueueSubmit _ _ fence =>
    if e.result = VK_SUCCESS then Function.update fm fence .in_flight else fm
  | .GetFenceStatus _ fence =>
    if e.result = VK_SUCCESS then Function.update fm fence .signaled else fm
  | .WaitForFences _ pFences _ _ =>
    if e.result = VK_SUCCESS then
      pFences.foldl (fun m f => Function.update m f .signaled) fm
    else fm
  | _ => fm

/-- Effect of a sequence of calls on the fences. -/
def fence_run (fm : FenceMap) (t : List Event) : FenceMap :=
  t.foldl fence_step fm

/-- Number of slots whose fence is in flight. -/
def in_flight_count (s : command_list_immediate_impl) (fm : FenceMap) : Nat :=
  ((List.range NUM_COMMAND_FRAMES).filter fun i => fm (idx s._cmd_fences i) = .in_flight).length

/-- A `flush` whose rotation step gets no usable answer about the fence of the
slot it rotates to: it has commands to submit, closing and submitting succeed,
and then `vkGetFenceStatus` returns neither `VK_SUCCESS` nor `VK_NOT_READY`, or
it returns `VK_NOT_READY` and the `vkWaitForFences` issued for it fails. -/
def rotation_fence_error (s : command_list_immediate_impl) (d : FlushDriver) : Prop :=
  s._has_commands = true ∧ d.EndCommandBuffer = VK_SUCCESS ∧ d.QueueSubmit = VK_SUCCESS ∧
    ¬ (d.GetFenceStatus = VK_SUCCESS ∨
      (d.GetFenceStatus = VK_NOT_READY ∧ d.WaitForFences = VK_SUCCESS))

instance (s : command_list_immediate_impl) (d : FlushDriver) :
    Decidable (rotation_fence_error s d) :=
  inferInstanceAs (Decidable (_ ∧ _ ∧ _ ∧ _))

/-- States of an immediate command list, with the fences of the driver, that
are reached from a successful construction by recording commands, by `flush`
and `flush_and_wait` with driver results that `allowed` admits, and by the GPU
completing a batch in between. -/
inductive ReachableWithFences (allowed : command_list_immediate_impl → FlushDriver → Prop) :
    command_list_immediate_impl → FenceMap → Prop where
  | construct (self : Nat) (device : device_impl) (queue_family_index : Nat) (queue : Handle)
      (last : Option Nat) (d : CtorDriver) (fm0 : FenceMap) :
      d.all_checked_ok →
      ReachableWithFences allowed (construct self device queue_family_index queue last d).state
        (fence_run fm0 (construct self device queue_family_index queue last d).trace)
  | record (s : command_list_immediate_impl) (fm : FenceMap) :
      ReachableWithFences allowed s fm → ReachableWithFences allowed (record s) fm
  | complete (s : command_list_immediate_impl) (fm : FenceMap) (f : Handle) :
      ReachableWithFences allowed s fm → fm f = .in_flight →
      ReachableWithFences allowed s (Function.update fm f .signaled)
  | flush (s : command_list_immediate_impl) (fm : FenceMap) (semaphore_info : VkSubmitInfo)
      (d : FlushDriver) :
      ReachableWithFences allowed s fm → allowed s d →
      ReachableWithFences allowed (flush s semaphore_info d).state
        (fence_run fm (flush s semaphore_info d).trace)
  | flush_and_wait (s : command_list_immediate_impl) (fm : FenceMap) (d : FlushDriver)
      (wait : VkResult) :
      ReachableWithFences allowed s fm → allowed s d →
      ReachableWithFences allowed (flush_and_wait s d wait).state
        (fence_run fm (flush_and_wait s d wait).trace)

/-! ## Reachable states, fences left aside -/

/-- A `flush` that fails at the reopen step: it has commands to submit, closing
and submitting succeed, and the `vkBeginCommandBuffer` on the new slot fails. -/
def reopen_fails (s : command_list_immediate_impl) (d : FlushDriver) : Prop :=
  s._has_commands = true ∧ d.EndCommandBuffer = VK_SUCCESS ∧ d.QueueSubmit = VK_SUCCESS ∧
    d.BeginCommandBuffer ≠ VK_SUCCESS

instance (s : command_list_immediate_impl) (d : FlushDriver) : Decidable (reopen_fails s d) :=
  inferInstanceAs (Decidable (_ ∧ _ ∧ _ ∧ _))

/-- States reached from a successful construction by recording commands and
calling `flush`, each `flush` with driver results that `allowed` admits. -/
inductive ReachableBy (allowed : command_list_immediate_impl → FlushDriver → Prop) :
    command_list_immediate_impl → Prop where
  | construct (self : Nat) (device : device_impl) (queue_family_index : Nat) (queue : Handle)
      (last : Option Nat) (d : CtorDriver) :
      d.all_checked_ok →
      ReachableBy allowed (construct self device queue_family_index queue last d).state
  | record (s : command_list_immediate_impl) :
      ReachableBy allowed s → ReachableBy allowed (record s)
  | flush (s : command_list_immediate_impl) (semaphore_info : VkSubmitInfo) (d : FlushDriver) :
      ReachableBy allowed s → allowed s d →
      ReachableBy allowed (flush s semaphore_info d).state

/-! ## Repeated flushes -/

/-- Consecutive `flush` calls with nothing recorded in between; returns the
final members and `semaphore_info` and, per call, its return value and trace. -/
def flush_repeat (s : command_list_immediate_impl) (semaphore_info : VkSubmitInfo) :
    List FlushDriver → command_list_immediate_impl × VkSubmitInfo × List (Bool × List Event)
  | [] => (s, semaphore_info, [])
  | d :: ds =>
    let r := flush s semaphore_info d
    let rest := flush_repeat r.state r.semaphore_info ds
    (rest.1, rest.2.1, (r.ret, r.trace) :: rest.2.2)

/-- Record a command, then `flush`; members afterwards. -/
def record_flush (s : command_list_immediate_impl) (x : VkSubmitInfo × FlushDriver) :
    command_list_immediate_impl :=
  (flush (record s) x.1 x.2).state

/-- A sequence of record-then-flush cycles. -/
def record_flush_cycles (s : command_list_immediate_impl)
    (xs : List (VkSubmitInfo × FlushDriver)) : command_list_immediate_impl :=
  xs.foldl record_flush s

/-- Closing, submitting and reopening all succeed. -/
def FlushDriver.succeeds (d : FlushDriver) : Prop :=
  d.EndCommandBuffer = VK_SUCCESS ∧ d.QueueSubmit = VK_SUCCESS ∧ d.BeginCommandBuffer = VK_SUCCESS

instance (d : FlushDriver) : Decidable d.succeeds :=
  inferInstanceAs (Decidable (_ ∧ _ ∧ _))


/-! ## Stages of construction -/

/-- Construction is under way: the object is not ready, the cursor is `0`,
nothing has been opened for recording, and every checked allocation issued so far
succeeded. -/
def CtorPending (a : CtorResult) : Prop :=
  a.state._orig = VK_NULL_HANDLE ∧ a.state._cmd_index = 0 ∧
    (∀ e ∈ a.trace, e.call.isBegin = false) ∧
    (∀ e ∈ a.trace, e.call.isCheckedAllocation = true → e.result = VK_SUCCESS)

/-- Construction stopped at a failed checked allocation: that call is the last
one issued, every checked allocation before it succeeded, nothing has been opened
for recording and the object is not ready. -/
def CtorAborted (a : CtorResult) : Prop :=
  a.state._orig = VK_NULL_HANDLE ∧ (∀ e ∈ a.trace, e.call.isBegin = false) ∧
    ∃ pre e, a.trace = pre ++ [e] ∧ e.call.isCheckedAllocation = true ∧
      e.result ≠ VK_SUCCESS ∧
      ∀ x ∈ pre, x.call.isCheckedAllocation = true → x.result = VK_SUCCESS

/-- Every command pool, command buffer, fence and semaphore allocation of the
constructor succeeds. -/
def CtorDriver.allocations_ok (d : CtorDriver) : Prop :=
  d.CreateCommandPool.1 = VK_SUCCESS ∧ d.AllocateCommandBuffers.1 = VK_SUCCESS ∧
    (∀ i, i < NUM_COMMAND_FRAMES → (d.CreateFence i).1 = VK_SUCCESS) ∧
    (∀ i, i < NUM_COMMAND_FRAMES → (d.CreateSemaphore i).1 = VK_SUCCESS)

instance (d : CtorDriver) : Decidable d.allocations_ok :=
  inferInstanceAs (Decidable (_ ∧ _ ∧ _ ∧ _))

/-! ## Reading traces -/

/-- Recognises `vkResetFences`. -/
def Call.isResetFences : Call → Bool
  | .ResetFences .. => true
  | _ => false

/-- Recognises `vkQueueSubmit`. -/
def Call.isQueueSubmit : Call → Bool
  | .QueueSubmit .. => true
  | _ => false

/-- Calls of the rotation step of `flush`: the status query and the wait on a
fence, and the reset of a transient descriptor pool. -/
def Call.isRotation : Call → Bool
  | .GetFenceStatus .. => true
  | .WaitForFences .. => true
  | .ResetDescriptorPool .. => true
  | _ => false

/-- Recognises `vkAllocateDescriptorSets`. -/
def Call.isAllocateDescriptorSets : Call → Bool
  | .AllocateDescriptorSets .. => true
  | _ => false

/-- A descriptor write (`vkUpdateDescriptorSets`) or a `bind_descriptor_tables`. -/
def Call.isWriteOrBind : Call → Bool
  | .UpdateDescriptorSets .. => true
  | .bind_descriptor_tables .. => true
  | _ => false

/-- Calls that read or change the state of a fence. -/
def Call.touchesFences : Call → Bool
  | .CreateFence .. => true
  | .ResetFences .. => true
  | .QueueSubmit .. => true
  | .GetFenceStatus .. => true
  | .WaitForFences .. => true
  | _ => false

/-- During construction, before slot `i` is set up: the fence array has its
`NUM_COMMAND_FRAMES` cells and the fences of the slots below `i` are signaled in
the fence state the calls issued so far lead to from `fm0`. -/
def CtorFences (i : Nat) (fm0 : FenceMap) (a : CtorResult) : Prop :=
  a.state._cmd_fences.length = NUM_COMMAND_FRAMES ∧
    ∀ j, j < i → fence_run fm0 a.trace (idx a.state._cmd_fences j) = .signaled

/-- The batches handed to `vkQueueSubmit` in a trace, in order. -/
def submissions : List Event → List VkSubmitInfo
  | [] => []
  | e :: es =>
    match e.call with
    | .QueueSubmit _ pSubmits _ => pSubmits ++ submissions es
    | _ => submissions es


/-! ## Sample objects -/

/-- A sampled-image update of two descriptors. -/
def sample_update : descriptor_table_update :=
  { table := 0, binding := 0, array_offset := 0, count := 2,
    type := .texture_shader_resource_view, descriptors := [⟨0, 71⟩, ⟨0, 72⟩] }

/-- An environment whose `vkAllocateDescriptorSets` answers `result` and hands out
set `61`; set layouts are numbered `50 + layout_param`. -/
def sample_push_env (result : VkResult) : PushEnv :=
  { convert_descriptor_type := fun _ => VK_DESCRIPTOR_TYPE_SAMPLED_IMAGE
    set_layouts := fun _ param => 50 + param
    AllocateDescriptorSets := (result, 61) }


/-- A device without push descriptors and without debug names. -/
def sample_device : device_impl := ⟨1, false, false⟩

/-- A driver under which every call of the constructor succeeds, handing out
distinct handles. -/
def sample_ctor_driver : CtorDriver :=
  { CreateCommandPool := (VK_SUCCESS, 10)
    AllocateCommandBuffers := (VK_SUCCESS, [11, 12, 13, 14])
    SetDebugUtilsObjectNameEXT := fun _ => VK_SUCCESS
    CreateFence := fun i => (VK_SUCCESS, 21 + i)
    CreateSemaphore := fun i => (VK_SUCCESS, 31 + i)
    CreateDescriptorPool := fun i => (VK_SUCCESS, 41 + i)
    BeginCommandBuffer := VK_SUCCESS }

/-- The object the sample driver constructs on queue `2`. -/
def sample_state : command_list_immediate_impl :=
  (construct 100 sample_device 0 2 none sample_ctor_driver).state

/-- Driver results of a `flush` in which everything succeeds and the next slot's
fence is found signaled. -/
def sample_flush_ok : FlushDriver := ⟨0, 0, 0, 0, 0, 0, 0⟩

/-- A caller's `semaphore_info` that asks for a signal only, with a stage mask in
place for the wait it will carry afterwards. -/
def sample_signal_request : VkSubmitInfo :=
  { pWaitDstStageMask := some [65536], signalSemaphoreCount := 1 }

/-- Driver results of a `flush` in which closing and submitting succeed and the
`vkBeginCommandBuffer` on the new slot fails. -/
def sample_flush_reopen_fails : FlushDriver := ⟨0, 0, 0, 0, 0, 0, -1⟩

/-- The sample object after recording a command and a `flush` that fails at the
reopen step. -/
def sample_state_reopen_failed : command_list_immediate_impl :=
  (flush (record sample_state) {} sample_flush_reopen_fails).state

/-- Driver results of a `flush` in which everything succeeds and the next slot's
fence is found not ready, so that the rotation waits on it. -/
def sample_flush_busy : FlushDriver := ⟨0, 0, 0, VK_NOT_READY, 0, 0, 0⟩

/-- Driver results of a `flush` in which closing, submitting and reopening succeed
and `vkGetFenceStatus` reports a lost device (`VK_ERROR_DEVICE_LOST = -4`). -/
def sample_flush_status_error : FlushDriver := ⟨0, 0, 0, -4, 0, 0, 0⟩

/-- Driver results of a `flush` in which closing, submitting and reopening succeed,
`vkGetFenceStatus` answers `VK_NOT_READY` and the `vkWaitForFences` issued for it
reports a lost device. -/
def sample_flush_wait_error : FlushDriver := ⟨0, 0, 0, VK_NOT_READY, -4, 0, 0⟩

/-- Fences of the driver once the sample object is constructed. -/
def sample_fences : FenceMap :=
  fence_run (fun _ => .unsignaled) (construct 100 sample_device 0 2 none sample_ctor_driver).trace

/-- Record a command and `flush` with results `d`, following the fences. -/
def sample_cycle (x : command_list_immediate_impl × FenceMap) (d : FlushDriver) :
    command_list_immediate_impl × FenceMap :=
  ((flush (record x.1) {} d).state, fence_run x.2 (flush (record x.1) {} d).trace)

/-- The sample object and its fences after three record-then-flush cycles with
the GPU completing nothing: the cursor is on slot `3`, slots `0`, `1`, `2` are
submitted. -/
def sample_after_three : command_list_immediate_impl × FenceMap :=
  sample_cycle (sample_cycle (sample_cycle (sample_state, sample_fences) sample_flush_ok)
    sample_flush_ok) sample_flush_ok

/-- A fourth cycle whose rotation finds slot `0` busy and waits for it. -/
def sample_after_four : command_list_immediate_impl × FenceMap :=
  sample_cycle sample_after_three sample_flush_busy

/-- A fourth cycle whose fence query on slot `0` reports a lost device. -/
def sample_after_status_error : command_list_immediate_impl × FenceMap :=
  sample_cycle sample_after_three sample_flush_status_error

/-- A fourth cycle whose wait on the fence of slot `0` reports a lost device. -/
def sample_after_wait_error : command_list_immediate_impl × FenceMap :=
  sample_cycle sample_after_three sample_flush_wait_error

/-- The sample driver, except that creating the transient descriptor pool of
slot `0` fails. -/
def sample_ctor_driver_pool_fails : CtorDriver :=
  { sample_ctor_driver with
    CreateDescriptorPool := fun i => if i = 0 then (-1, 0) else (VK_SUCCESS, 41 + i) }

/-- The sample driver, except that creating the fence of slot `2` fails. -/
def sample_ctor_driver_fence_fails : CtorDriver :=
  { sample_ctor_driver with
    CreateFence := fun i => if i = 2 then (-1, 0) else (VK_SUCCESS, 21 + i) }



/-! ## Theorems -/

theorem sample_state_eq :
    sample_state =
      { self := 100, _device_impl := sample_device, _orig := 11, _has_commands := false,
        _parent_queue := 2, _cmd_index := 0, _cmd_pool := 10, _cmd_buffers := [11, 12, 13, 14],
        _cmd_fences := [21, 22, 23, 24], _cmd_semaphores := [31, 32, 33, 34],
        _transient_descriptor_pool := [41, 42, 43, 44],
        s_last_immediate_command_list := some 100 } := by
  decide


/-! ### flush with nothing pending -/

theorem flush_of_not_has_commands (s : command_list_immediate_impl)
    (h : s._has_commands = false) (semaphore_info : VkSubmitInfo) (d : FlushDriver) :
    flush s semaphore_info d =
      ⟨true, { s with s_last_immediate_command_list := some s.self }, semaphore_info, [], []⟩ := by
  simp [flush, h]

theorem flush_repeat_of_not_has_commands (ds : List FlushDriver) :
    ∀ (s : command_list_immediate_impl) (semaphore_info : VkSubmitInfo),
      s._has_commands = false →
      (flush_repeat s semaphore_info ds).2.2 = List.replicate ds.length (true, []) ∧
      (flush_repeat s semaphore_info ds).2.1 = semaphore_info ∧
      (flush_repeat s semaphore_info ds).1._cmd_index = s._cmd_index ∧
      (flush_repeat s semaphore_info ds).1._orig = s._orig ∧
      (flush_repeat s semaphore_info ds).1._has_commands = false := by
  induction ds with
  | nil => intro s semaphore_info h; simp [flush_repeat, h]
  | cons d ds ih =>
    intro s semaphore_info h
    have hf := flush_of_not_has_commands s h semaphore_info d
    have := ih { s with s_last_immediate_command_list := some s.self } semaphore_info h
    simp only [flush_repeat, hf, List.length_cons, List.replicate_succ]
    simpa using this

/-- C1: a `flush` on a state whose pending-command flag is false returns true,
issues no call at all, and leaves the cursor, the flag, the active handle and the
caller's `semaphore_info` as they were (of the members only the thread-local
last-active pointer is set); any number of such flushes in a row all return true
with an empty trace, hence without any submission. -/
theorem flush_not_pending_is_noop (s : command_list_immediate_impl)
    (h : s._has_commands = false) (semaphore_info : VkSubmitInfo) (d : FlushDriver) :
    (flush s semaphore_info d).ret = true ∧
    (flush s semaphore_info d).trace = [] ∧
    (flush s semaphore_info d).state._cmd_index = s._cmd_index ∧
    (flush s semaphore_info d).state._has_commands = false ∧
    (flush s semaphore_info d).state._orig = s._orig ∧
    (flush s semaphore_info d).state = { s with s_last_immediate_command_list := some s.self } ∧
    (flush s semaphore_info d).semaphore_info = semaphore_info ∧
    ∀ ds : List FlushDriver,
      (flush_repeat s semaphore_info ds).2.2 = List.replicate ds.length (true, []) ∧
      (flush_repeat s semaphore_info ds).2.1 = semaphore_info ∧
      (flush_repeat s semaphore_info ds).1._cmd_index = s._cmd_index ∧
      (flush_repeat s semaphore_info ds).1._orig = s._orig ∧
      (flush_repeat s semaphore_info ds).1._has_commands = false := by
  rw [flush_of_not_has_commands s h]
  refine ⟨rfl, rfl, rfl, h, rfl, rfl, rfl, ?_⟩
  intro ds
  exact flush_repeat_of_not_has_commands ds s semaphore_info h

theorem flush_not_pending_is_noop_witness :
    sample_state._has_commands = false ∧
    (flush sample_state {} sample_flush_ok).ret = true ∧
    (flush sample_state {} sample_flush_ok).trace = [] ∧
    (flush_repeat sample_state {} [sample_flush_ok, sample_flush_ok, sample_flush_ok]).2.2 =
      [(true, []), (true, []), (true, [])] :=
  have h := flush_not_pending_is_noop sample_state (by decide) {} sample_flush_ok
  ⟨by decide, h.1, h.2.1,
    (h.2.2.2.2.2.2.2 [sample_flush_ok, sample_flush_ok, sample_flush_ok]).1⟩

/-! ### flush with commands pending -/

theorem idx_cursor_mod (c : Nat) : ((c + 1) % 2 ^ 32) % NUM_COMMAND_FRAMES = (c + 1) % 4 := by
  simp only [NUM_COMMAND_FRAMES]
  omega

theorem flush_rotate_state (s : command_list_immediate_impl)
    (semaphore_info submit_info : VkSubmitInfo) (d : FlushDriver) (trace : List Event) :
    (flush_rotate s semaphore_info submit_info d trace).state._cmd_index =
        (s._cmd_index + 1) % 4 ∧
    (flush_rotate s semaphore_info submit_info d trace).state._has_commands = s._has_commands ∧
    (flush_rotate s semaphore_info submit_info d trace).state._cmd_buffers = s._cmd_buffers ∧
    (flush_rotate s semaphore_info submit_info d trace).state._cmd_fences = s._cmd_fences ∧
    (flush_rotate s semaphore_info submit_info d trace).state._device_impl = s._device_impl ∧
    (flush_rotate s semaphore_info submit_info d trace).ret =
        decide (d.BeginCommandBuffer = VK_SUCCESS) ∧
    (flush_rotate s semaphore_info submit_info d trace).state._orig =
        (if d.BeginCommandBuffer = VK_SUCCESS then idx s._cmd_buffers ((s._cmd_index + 1) % 4)
          else s._orig) := by
  unfold flush_rotate
  simp only [idx_cursor_mod]
  by_cases hb : d.BeginCommandBuffer = VK_SUCCESS <;> simp [hb]

theorem flush_success_path (s : command_list_immediate_impl) (semaphore_info : VkSubmitInfo)
    (d : FlushDriver) (h : s._has_commands = true) (he : d.EndCommandBuffer = VK_SUCCESS)
    (hs : d.QueueSubmit = VK_SUCCESS) :
    flush s semaphore_info d =
      flush_rotate
        { s with s_last_immediate_command_list := some s.self, _has_commands := false }
        semaphore_info
        (flush_submit_info
          { s with s_last_immediate_command_list := some s.self, _has_commands := false }
          semaphore_info) d
        [⟨.EndCommandBuffer s._orig, d.EndCommandBuffer⟩,
         ⟨.ResetFences s._device_impl._orig [idx s._cmd_fences s._cmd_index], d.ResetFences⟩,
         ⟨.QueueSubmit s._parent_queue
            [flush_submit_info
              { s with s_last_immediate_command_list := some s.self, _has_commands := false }
              semaphore_info]
            (idx s._cmd_fences s._cmd_index), d.QueueSubmit⟩] := by
  simp [flush, h, he, hs]

theorem flush_cursor_step (s : command_list_immediate_impl) (semaphore_info : VkSubmitInfo)
    (d : FlushDriver) (h : s._has_commands = true) (hd : d.succeeds) :
    (flush s semaphore_info d).state._cmd_index = (s._cmd_index + 1) % 4 := by
  rw [flush_success_path s semaphore_info d h hd.1 hd.2.1]
  exact (flush_rotate_state _ _ _ _ _).1

theorem record_flush_cycles_cursor (xs : List (VkSubmitInfo × FlushDriver)) :
    ∀ s : command_list_immediate_impl, (∀ x ∈ xs, x.2.succeeds) →
      (record_flush_cycles s xs)._cmd_index = (s._cmd_index + xs.length) % 4 ∨
      (xs = [] ∧ (record_flush_cycles s xs)._cmd_index = s._cmd_index) := by
  induction xs with
  | nil => intro s _; right; exact ⟨rfl, rfl⟩
  | cons x xs ih =>
    intro s hx
    left
    have h1 : (record_flush s x)._cmd_index = (s._cmd_index + 1) % 4 := by
      have := flush_cursor_step (record s) x.1 x.2 rfl (hx x (List.mem_cons_self _ _))
      simpa [record_flush, record] using this
    have h2 := ih (record_flush s x) (fun y hy => hx y (List.mem_cons_of_mem _ hy))
    simp only [record_flush_cycles, List.foldl_cons, List.length_cons] at h2 ⊢
    rcases h2 with h2 | ⟨hnil, h2⟩
    · rw [h2, h1]; omega
    · subst hnil
      simp only [List.foldl_nil] at h2 ⊢
      rw [h1]; simp

/-- C2: with `NUM_COMMAND_FRAMES = 4`, a `flush` on a state with cursor `c`
below 4 and pending commands in which closing,
submitting and reopening succeed returns true and leaves the cursor at
`(c + 1) mod 4`, the pending flag false and the active handle equal to the command
buffer of slot `(c + 1) mod 4`; four record-then-flush cycles of that kind bring
the cursor back to `c`. -/
theorem flush_advances_ring (s : command_list_immediate_impl) (semaphore_info : VkSubmitInfo)
    (d : FlushDriver) (hc : s._cmd_index < NUM_COMMAND_FRAMES)
    (h : s._has_commands = true) (hd : d.succeeds) :
    NUM_COMMAND_FRAMES = 4 ∧
    (flush s semaphore_info d).ret = true ∧
    (flush s semaphore_info d).state._cmd_index = (s._cmd_index + 1) % 4 ∧
    (flush s semaphore_info d).state._has_commands = false ∧
    (flush s semaphore_info d).state._orig =
      idx (flush s semaphore_info d).state._cmd_buffers ((s._cmd_index + 1) % 4) ∧
    (flush s semaphore_info d).state._cmd_buffers = s._cmd_buffers ∧
    ∀ xs : List (VkSubmitInfo × FlushDriver), xs.length = 4 → (∀ x ∈ xs, x.2.succeeds) →
      (record_flush_cycles s xs)._cmd_index = s._cmd_index := by
  have hrot := flush_rotate_state
    { s with s_last_immediate_command_list := some s.self, _has_commands := false }
    semaphore_info
    (flush_submit_info
      { s with s_last_immediate_command_list := some s.self, _has_commands := false }
      semaphore_info) d
    [⟨.EndCommandBuffer s._orig, d.EndCommandBuffer⟩,
     ⟨.ResetFences s._device_impl._orig [idx s._cmd_fences s._cmd_index], d.ResetFences⟩,
     ⟨.QueueSubmit s._parent_queue
        [flush_submit_info
          { s with s_last_immediate_command_list := some s.self, _has_commands := false }
          semaphore_info]
        (idx s._cmd_fences s._cmd_index), d.QueueSubmit⟩]
  rw [flush_success_path s semaphore_info d h hd.1 hd.2.1]
  obtain ⟨h1, h2, h3, -, -, h6, h7⟩ := hrot
  refine ⟨rfl, ?_, h1, h2, ?_, h3, ?_⟩
  · rw [h6]; simp [hd.2.2]
  · rw [h7, h3]; simp [hd.2.2]
  · intro xs hlen hx
    rcases record_flush_cycles_cursor xs s hx with h | ⟨hnil, _⟩
    · rw [h, hlen]
      simp only [NUM_COMMAND_FRAMES] at hc
      omega
    · subst hnil; simp at hlen

theorem flush_advances_ring_witness :
    flush_assert_orig (record sample_state) ∧
    flush_assert_wait_stage (flush (record sample_state) {} sample_flush_ok).semaphore_info ∧
    (flush (record sample_state) {} sample_flush_ok).ret = true ∧
    (flush (record sample_state) {} sample_flush_ok).state._cmd_index = 1 ∧
    (flush (record sample_state) {} sample_flush_ok).state._has_commands = false ∧
    (flush (record sample_state) {} sample_flush_ok).state._orig = 12 ∧
    (record_flush_cycles (record sample_state)
      [({}, sample_flush_ok), ({}, sample_flush_ok), ({}, sample_flush_ok),
        ({}, sample_flush_ok)])._cmd_index = 0 :=
  have h := flush_advances_ring (record sample_state) {} sample_flush_ok (by decide) (by decide)
    (by decide)
  ⟨by decide, by decide, h.2.1, h.2.2.1, h.2.2.2.1, h.2.2.2.2.1.trans (by decide),
    h.2.2.2.2.2.2 _ (by decide) (by decide)⟩


theorem flush_close_failure (s : command_list_immediate_impl) (semaphore_info : VkSubmitInfo)
    (d : FlushDriver) (h : s._has_commands = true) (he : d.EndCommandBuffer ≠ VK_SUCCESS) :
    flush s semaphore_info d =
      ⟨false, { s with s_last_immediate_command_list := some s.self, _has_commands := false },
        semaphore_info,
        [⟨.EndCommandBuffer s._orig, d.EndCommandBuffer⟩,
         ⟨.BeginCommandBuffer s._orig VK_COMMAND_BUFFER_USAGE_ONE_TIME_SUBMIT_BIT,
            d.BeginCommandBuffer⟩],
        ["Failed to close immediate command list!"]⟩ := by
  simp [flush, h, he]

theorem flush_submit_failure (s : command_list_immediate_impl) (semaphore_info : VkSubmitInfo)
    (d : FlushDriver) (h : s._has_commands = true) (he : d.EndCommandBuffer = VK_SUCCESS)
    (hs : d.QueueSubmit ≠ VK_SUCCESS) :
    flush s semaphore_info d =
      ⟨false, { s with s_last_immediate_command_list := some s.self, _has_commands := false },
        semaphore_info,
        [⟨.EndCommandBuffer s._orig, d.EndCommandBuffer⟩,
         ⟨.ResetFences s._device_impl._orig [idx s._cmd_fences s._cmd_index], d.ResetFences⟩,
         ⟨.QueueSubmit s._parent_queue
            [flush_submit_info
              { s with s_last_immediate_command_list := some s.self, _has_commands := false }
              semaphore_info]
            (idx s._cmd_fences s._cmd_index), d.QueueSubmit⟩,
         ⟨.BeginCommandBuffer s._orig VK_COMMAND_BUFFER_USAGE_ONE_TIME_SUBMIT_BIT,
            d.BeginCommandBuffer⟩],
        ["Failed to submit immediate command list!"]⟩ := by
  simp [flush, h, he, hs]

/-- C3: on a ready state with pending commands, a `flush` in which
`vkEndCommandBuffer` fails, or in which it succeeds and `vkQueueSubmit` fails,
returns false, keeps the cursor and the active handle, ends with a
`vkBeginCommandBuffer` on that same handle, issues no call of the rotation step
(no fence status query or wait, no descriptor-pool reset) and leaves the caller's
`semaphore_info` untouched; the calls are close, reopen in the first case and
close, fence reset, submit, reopen in the second. -/
theorem flush_failure_reopens_same_slot (s : command_list_immediate_impl)
    (semaphore_info : VkSubmitInfo) (d : FlushDriver)
    (hc : s._cmd_index < NUM_COMMAND_FRAMES) (ho : s._orig ≠ VK_NULL_HANDLE)
    (h : s._has_commands = true)
    (hf : d.EndCommandBuffer ≠ VK_SUCCESS ∨
      (d.EndCommandBuffer = VK_SUCCESS ∧ d.QueueSubmit ≠ VK_SUCCESS)) :
    (flush s semaphore_info d).ret = false ∧
    (flush s semaphore_info d).state._cmd_index = s._cmd_index ∧
    (flush s semaphore_info d).state._cmd_index < NUM_COMMAND_FRAMES ∧
    (flush s semaphore_info d).state._orig = s._orig ∧
    (flush s semaphore_info d).state._orig ≠ VK_NULL_HANDLE ∧
    (flush s semaphore_info d).trace.getLast? =
      some ⟨.BeginCommandBuffer s._orig VK_COMMAND_BUFFER_USAGE_ONE_TIME_SUBMIT_BIT,
        d.BeginCommandBuffer⟩ ∧
    ((calls (flush s semaphore_info d).trace).filter Call.isBegin).length = 1 ∧
    (∀ c ∈ calls (flush s semaphore_info d).trace, c.isRotation = false) ∧
    (flush s semaphore_info d).semaphore_info = semaphore_info ∧
    (d.EndCommandBuffer ≠ VK_SUCCESS →
      calls (flush s semaphore_info d).trace =
        [.EndCommandBuffer s._orig,
         .BeginCommandBuffer s._orig VK_COMMAND_BUFFER_USAGE_ONE_TIME_SUBMIT_BIT]) ∧
    (d.EndCommandBuffer = VK_SUCCESS →
      ∃ submit_info, calls (flush s semaphore_info d).trace =
        [.EndCommandBuffer s._orig,
         .ResetFences s._device_impl._orig [idx s._cmd_fences s._cmd_index],
         .QueueSubmit s._parent_queue [submit_info] (idx s._cmd_fences s._cmd_index),
         .BeginCommandBuffer s._orig VK_COMMAND_BUFFER_USAGE_ONE_TIME_SUBMIT_BIT]) := by
  rcases hf with he | ⟨he, hs⟩
  · rw [flush_close_failure s semaphore_info d h he]
    refine ⟨rfl, rfl, hc, rfl, ho, rfl, rfl, ?_, rfl, fun _ => rfl, fun h0 => absurd h0 he⟩
    intro c hcm
    simp [calls] at hcm
    rcases hcm with rfl | rfl <;> rfl
  · rw [flush_submit_failure s semaphore_info d h he hs]
    refine ⟨rfl, rfl, hc, rfl, ho, rfl, rfl, ?_, rfl, fun h0 => absurd he h0, fun _ => ⟨_, rfl⟩⟩
    intro c hcm
    simp [calls] at hcm
    rcases hcm with rfl | rfl | rfl | rfl <;> rfl

theorem flush_failure_reopens_same_slot_witness :
    (flush (record sample_state) {} ⟨-1, 0, 0, 0, 0, 0, 0⟩).ret = false ∧
    (flush (record sample_state) {} ⟨-1, 0, 0, 0, 0, 0, 0⟩).state._orig = 11 ∧
    calls (flush (record sample_state) {} ⟨-1, 0, 0, 0, 0, 0, 0⟩).trace =
      [.EndCommandBuffer 11, .BeginCommandBuffer 11 1] :=
  have h := flush_failure_reopens_same_slot (record sample_state) {} ⟨-1, 0, 0, 0, 0, 0, 0⟩
    (by decide) (by decide) (by decide) (Or.inl (by decide))
  ⟨h.1, h.2.2.2.1.trans (by decide), (h.2.2.2.2.2.2.2.2.2.1 (by decide)).trans (by decide)⟩


/-! ### Order of fence reset and submit -/

theorem flush_rotate_trace (s : command_list_immediate_impl)
    (semaphore_info submit_info : VkSubmitInfo) (d : FlushDriver) (trace : List Event) :
    ∃ rest, (flush_rotate s semaphore_info submit_info d trace).trace = trace ++ rest ∧
      ∀ e ∈ rest, e.call.isResetFences = false ∧ e.call.isQueueSubmit = false := by
  unfold flush_rotate
  by_cases hb : d.BeginCommandBuffer = VK_SUCCESS <;>
  by_cases hg : d.GetFenceStatus = VK_NOT_READY <;>
  by_cases hk : s._device_impl.KHR_push_descriptor = true <;>
  simp only [hb, hg, hk, ne_eq, not_true_eq_false, not_false_eq_true, if_true, if_false,
    Bool.not_true, Bool.not_false, Bool.false_eq_true, List.append_assoc] <;>
  refine ⟨_, rfl, ?_⟩ <;>
  simp [Call.isResetFences, Call.isQueueSubmit]

/-- The calls of a `flush` are none at all, or close and reopen, or close, reset
of the cursor slot's fence, submit with that fence, and a tail without any fence
reset or submit. -/
theorem flush_calls_shape (s : command_list_immediate_impl) (semaphore_info : VkSubmitInfo)
    (d : FlushDriver) :
    (s._has_commands = false ∧ calls (flush s semaphore_info d).trace = []) ∨
    (s._has_commands = true ∧ d.EndCommandBuffer ≠ VK_SUCCESS ∧
      calls (flush s semaphore_info d).trace =
        [.EndCommandBuffer s._orig,
         .BeginCommandBuffer s._orig VK_COMMAND_BUFFER_USAGE_ONE_TIME_SUBMIT_BIT]) ∨
    (s._has_commands = true ∧ d.EndCommandBuffer = VK_SUCCESS ∧
      ∃ submit_info rest, calls (flush s semaphore_info d).trace =
        .EndCommandBuffer s._orig ::
        .ResetFences s._device_impl._orig [idx s._cmd_fences s._cmd_index] ::
        .QueueSubmit s._parent_queue [submit_info] (idx s._cmd_fences s._cmd_index) :: rest ∧
        ∀ c ∈ rest, c.isResetFences = false ∧ c.isQueueSubmit = false) := by
  by_cases h : s._has_commands = true
  · by_cases he : d.EndCommandBuffer = VK_SUCCESS
    · right; right
      refine ⟨h, he, ?_⟩
      by_cases hs : d.QueueSubmit = VK_SUCCESS
      · rw [flush_success_path s semaphore_info d h he hs]
        obtain ⟨rest, hr, hrest⟩ := flush_rotate_trace
          { s with s_last_immediate_command_list := some s.self, _has_commands := false }
          semaphore_info
          (flush_submit_info
            { s with s_last_immediate_command_list := some s.self, _has_commands := false }
            semaphore_info) d
          [⟨.EndCommandBuffer s._orig, d.EndCommandBuffer⟩,
           ⟨.ResetFences s._device_impl._orig [idx s._cmd_fences s._cmd_index], d.ResetFences⟩,
           ⟨.QueueSubmit s._parent_queue
              [flush_submit_info
                { s with s_last_immediate_command_list := some s.self, _has_commands := false }
                semaphore_info]
              (idx s._cmd_fences s._cmd_index), d.QueueSubmit⟩]
        refine ⟨flush_submit_info
            { s with s_last_immediate_command_list := some s.self, _has_commands := false }
            semaphore_info, calls rest, ?_, ?_⟩
        · rw [hr]; simp [calls]
        · intro c hcm
          simp only [calls, List.mem_map] at hcm
          obtain ⟨e, hem, rfl⟩ := hcm
          exact hrest e hem
      · rw [flush_submit_failure s semaphore_info d h he hs]
        refine ⟨flush_submit_info
            { s with s_last_immediate_command_list := some s.self, _has_commands := false }
            semaphore_info,
          [.BeginCommandBuffer s._orig VK_COMMAND_BUFFER_USAGE_ONE_TIME_SUBMIT_BIT], rfl, ?_⟩
        intro c hcm
        simp at hcm
        subst hcm
        exact ⟨rfl, rfl⟩
    · right; left
      rw [flush_close_failure s semaphore_info d h he]
      exact ⟨h, he, rfl⟩
  · left
    have h0 : s._has_commands = false := by simpa using h
    rw [flush_of_not_has_commands s h0]
    exact ⟨h0, rfl⟩

/-- C4: in the calls of any one `flush`, whatever the state and the driver
results: a `vkResetFences` is issued only for the fence of the slot at the cursor
the call started with and the very next call is the `vkQueueSubmit` passing that
fence; every `vkQueueSubmit` comes right after the `vkResetFences` of its fence;
no `vkResetFences` comes after a `vkQueueSubmit`; and a `flush` that finds no
pending commands or fails to close issues no `vkResetFences`. -/
theorem flush_resets_fence_only_before_submit (s : command_list_immediate_impl)
    (semaphore_info : VkSubmitInfo) (d : FlushDriver) :
    (∀ (i : Nat) device fences, (calls (flush s semaphore_info d).trace)[i]? =
        some (Call.ResetFences device fences) →
      fences = [idx s._cmd_fences s._cmd_index] ∧
      ∃ queue submits, (calls (flush s semaphore_info d).trace)[i + 1]? =
        some (Call.QueueSubmit queue submits (idx s._cmd_fences s._cmd_index))) ∧
    (∀ (i : Nat) queue submits fence, (calls (flush s semaphore_info d).trace)[i]? =
        some (Call.QueueSubmit queue submits fence) →
      ∃ j device, i = j + 1 ∧
        (calls (flush s semaphore_info d).trace)[j]? = some (Call.ResetFences device [fence])) ∧
    (∀ (i j : Nat) queue submits fence, (calls (flush s semaphore_info d).trace)[i]? =
        some (Call.QueueSubmit queue submits fence) → i < j →
      ∀ c : Call, (calls (flush s semaphore_info d).trace)[j]? = some c →
        c.isResetFences = false) ∧
    ((s._has_commands = false ∨ d.EndCommandBuffer ≠ VK_SUCCESS) →
      ∀ c ∈ calls (flush s semaphore_info d).trace, c.isResetFences = false) := by
  rcases flush_calls_shape s semaphore_info d with ⟨h, ht⟩ | ⟨h, he, ht⟩ | ⟨h, he, si, rest, ht, hrest⟩
  · rw [ht]; simp
  · rw [ht]
    refine ⟨?_, ?_, ?_, ?_⟩
    · intro i device fences hi
      rcases i with _ | _ | i <;> simp at hi
    · intro i queue submits fence hi
      rcases i with _ | _ | i <;> simp at hi
    · intro i j queue submits fence hi
      rcases i with _ | _ | i <;> simp at hi
    · intro _ c hcm
      simp at hcm
      rcases hcm with rfl | rfl <;> rfl
  · rw [ht]
    have hrest_get : ∀ k (c : Call), rest[k]? = some c → c.isResetFences = false ∧ c.isQueueSubmit = false :=
      fun k c hk => hrest c (List.getElem?_mem hk)
    refine ⟨?_, ?_, ?_, ?_⟩
    · intro i device fences hi
      rcases i with _ | _ | _ | i
      · simp at hi
      · simp at hi
        exact ⟨hi.2.symm, s._parent_queue, [si], by simp⟩
      · simp at hi
      · simp only [List.getElem?_cons_succ] at hi
        have := (hrest_get i _ hi).1
        simp [Call.isResetFences] at this
    · intro i queue submits fence hi
      rcases i with _ | _ | _ | i
      · simp at hi
      · simp at hi
      · simp at hi
        exact ⟨1, s._device_impl._orig, rfl, by simp [hi.2.2]⟩
      · simp only [List.getElem?_cons_succ] at hi
        have := (hrest_get i _ hi).2
        simp [Call.isQueueSubmit] at this
    · intro i j queue submits fence hi hij c hj
      rcases j with _ | _ | _ | j
      · omega
      · rcases i with _ | i
        · simp at hi
        · omega
      · simp at hj; subst hj; rfl
      · simp only [List.getElem?_cons_succ] at hj
        exact (hrest_get j c hj).1
    · intro hor
      rcases hor with h0 | h0
      · rw [h0] at h; cases h
      · exact absurd he h0


theorem flush_resets_fence_only_before_submit_witness :
    calls (flush (record sample_state) {} sample_flush_busy).trace =
      [.EndCommandBuffer 11, .ResetFences 1 [21],
       .QueueSubmit 2 [{ commandBufferCount := 1, pCommandBuffers := some [11] }] 21,
       .GetFenceStatus 1 22, .WaitForFences 1 [22] 1 18446744073709551615,
       .ResetDescriptorPool 1 42 0, .BeginCommandBuffer 12 1] ∧
    ∃ queue submits, (calls (flush (record sample_state) {} sample_flush_busy).trace)[1 + 1]? =
      some (Call.QueueSubmit queue submits (idx (record sample_state)._cmd_fences
        (record sample_state)._cmd_index)) :=
  ⟨by decide,
    ((flush_resets_fence_only_before_submit (record sample_state) {} sample_flush_busy).1 1 1
      [21] (by decide)).2⟩

/-! ### Members a flush never writes -/

theorem flush_keeps_arrays (s : command_list_immediate_impl) (semaphore_info : VkSubmitInfo)
    (d : FlushDriver) :
    (flush s semaphore_info d).state._cmd_fences = s._cmd_fences ∧
    (flush s semaphore_info d).state._cmd_buffers = s._cmd_buffers ∧
    (flush s semaphore_info d).state._cmd_semaphores = s._cmd_semaphores ∧
    (flush s semaphore_info d).state._device_impl = s._device_impl := by
  by_cases h : s._has_commands = true
  · by_cases he : d.EndCommandBuffer = VK_SUCCESS
    · by_cases hs : d.QueueSubmit = VK_SUCCESS
      · rw [flush_success_path s semaphore_info d h he hs]
        unfold flush_rotate
        by_cases hb : d.BeginCommandBuffer = VK_SUCCESS <;> simp [hb]
      · rw [flush_submit_failure s semaphore_info d h he hs]
        exact ⟨rfl, rfl, rfl, rfl⟩
    · rw [flush_close_failure s semaphore_info d h he]
      exact ⟨rfl, rfl, rfl, rfl⟩
  · have h0 : s._has_commands = false := by simpa using h
    rw [flush_of_not_has_commands s h0]
    exact ⟨rfl, rfl, rfl, rfl⟩

theorem flush_ret_true_cursor (s : command_list_immediate_impl) (semaphore_info : VkSubmitInfo)
    (d : FlushDriver) (h : s._has_commands = true)
    (hr : (flush s semaphore_info d).ret = true) :
    (flush s semaphore_info d).state._cmd_index = (s._cmd_index + 1) % 4 ∧
    (flush s semaphore_info d).state._orig = idx s._cmd_buffers ((s._cmd_index + 1) % 4) := by
  by_cases he : d.EndCommandBuffer = VK_SUCCESS
  · by_cases hs : d.QueueSubmit = VK_SUCCESS
    · rw [flush_success_path s semaphore_info d h he hs] at hr ⊢
      have hrot := flush_rotate_state
        { s with s_last_immediate_command_list := some s.self, _has_commands := false }
        semaphore_info
        (flush_submit_info
          { s with s_last_immediate_command_list := some s.self, _has_commands := false }
          semaphore_info) d
        [⟨.EndCommandBuffer s._orig, d.EndCommandBuffer⟩,
         ⟨.ResetFences s._device_impl._orig [idx s._cmd_fences s._cmd_index], d.ResetFences⟩,
         ⟨.QueueSubmit s._parent_queue
            [flush_submit_info
              { s with s_last_immediate_command_list := some s.self, _has_commands := false }
              semaphore_info]
            (idx s._cmd_fences s._cmd_index), d.QueueSubmit⟩]
      obtain ⟨h1, -, -, -, -, h6, h7⟩ := hrot
      rw [h6] at hr
      have hb : d.BeginCommandBuffer = VK_SUCCESS := by simpa using hr
      refine ⟨h1, ?_⟩
      rw [h7]; simp [hb]
    · rw [flush_submit_failure s semaphore_info d h he hs] at hr
      cases hr
  · rw [flush_close_failure s semaphore_info d h he] at hr
    cases hr

theorem idx_ne_of_nodup (xs : List Handle) (i j : Nat) (hi : i < xs.length) (hj : j < xs.length)
    (hij : i ≠ j) (hn : xs.Nodup) : idx xs i ≠ idx xs j := by
  unfold idx
  rw [List.getD_eq_getElem _ _ hi, List.getD_eq_getElem _ _ hj]
  intro h
  exact hij ((List.Nodup.getElem_inj_iff hn).1 h)

/-- C5: on a state with pending commands and cursor `c`, when the `flush` inside
`flush_and_wait` returns true, the last call of `flush_and_wait` is a
`vkWaitForFences` on the fence of slot `c`, the cursor captured before (the cursor
itself has moved on to `(c + 1) mod 4`, whose fence is a different one when the
four fences are distinct), with the timeout `UINT64_MAX`, and `flush_and_wait`
returns true exactly when that wait returns `VK_SUCCESS`. -/
theorem flush_and_wait_waits_on_submitted_slot (s : command_list_immediate_impl)
    (d : FlushDriver) (wait : VkResult) (h : s._has_commands = true)
    (hr : (flush s {} d).ret = true) :
    (flush_and_wait s d wait).trace =
      (flush s {} d).trace ++
        [⟨.WaitForFences s._device_impl._orig [idx s._cmd_fences s._cmd_index] VK_TRUE
            UINT64_MAX, wait⟩] ∧
    (flush_and_wait s d wait).trace.getLast? =
      some ⟨.WaitForFences s._device_impl._orig [idx s._cmd_fences s._cmd_index] VK_TRUE
        (2 ^ 64 - 1), wait⟩ ∧
    (flush_and_wait s d wait).state._cmd_index = (s._cmd_index + 1) % 4 ∧
    (s._cmd_index < NUM_COMMAND_FRAMES → s._cmd_fences.length = NUM_COMMAND_FRAMES →
      s._cmd_fences.Nodup →
      idx s._cmd_fences s._cmd_index ≠ idx s._cmd_fences ((s._cmd_index + 1) % 4)) ∧
    ((flush_and_wait s d wait).ret = true ↔ wait = VK_SUCCESS) := by
  have hk := flush_keeps_arrays s {} d
  have hc := flush_ret_true_cursor s {} d h hr
  have ht : (flush_and_wait s d wait).trace =
      (flush s {} d).trace ++
        [⟨.WaitForFences s._device_impl._orig [idx s._cmd_fences s._cmd_index] VK_TRUE
            UINT64_MAX, wait⟩] := by
    simp [flush_and_wait, h, hr, hk.1, hk.2.2.2]
  refine ⟨ht, ?_, ?_, ?_, ?_⟩
  · rw [ht]; simp [UINT64_MAX]
  · simp [flush_and_wait, h, hr, hc.1]
  · intro hlt hlen hn
    simp only [NUM_COMMAND_FRAMES] at hlt hlen
    exact idx_ne_of_nodup _ _ _ (by omega) (by omega) (by omega) hn
  · simp [flush_and_wait, h, hr]

theorem flush_and_wait_waits_on_submitted_slot_witness :
    (flush_and_wait (record sample_state) sample_flush_ok (-4)).trace.getLast? =
      some ⟨.WaitForFences 1 [21] 1 18446744073709551615, -4⟩ ∧
    (flush_and_wait (record sample_state) sample_flush_ok (-4)).state._cmd_index = 1 ∧
    (flush_and_wait (record sample_state) sample_flush_ok (-4)).ret = false :=
  have h := flush_and_wait_waits_on_submitted_slot (record sample_state) sample_flush_ok (-4)
    (by decide) (by decide)
  ⟨h.2.1.trans (by decide), h.2.2.1.trans (by decide), by
    have h5 := h.2.2.2.2
    cases hret : (flush_and_wait (record sample_state) sample_flush_ok (-4)).ret
    · rfl
    · exact absurd (h5.1 hret) (by decide)⟩


/-! ### Semaphore chaining -/

theorem flush_submit_info_congr (s : command_list_immediate_impl)
    (semaphore_info : VkSubmitInfo) :
    flush_submit_info
      { s with s_last_immediate_command_list := some s.self, _has_commands := false }
      semaphore_info = flush_submit_info s semaphore_info := rfl

theorem submissions_append (t u : List Event) :
    submissions (t ++ u) = submissions t ++ submissions u := by
  induction t with
  | nil => rfl
  | cons e t ih =>
    simp only [List.cons_append, submissions]
    split <;> simp [ih]

theorem submissions_of_no_submit (t : List Event)
    (h : ∀ e ∈ t, e.call.isQueueSubmit = false) : submissions t = [] := by
  induction t with
  | nil => rfl
  | cons e t ih =>
    have he := h e (List.mem_cons_self _ _)
    have ht := ih (fun x hx => h x (List.mem_cons_of_mem _ hx))
    simp only [submissions]
    split
    · rename_i heq
      rw [heq] at he
      simp [Call.isQueueSubmit] at he
    · exact ht

theorem flush_submissions (s : command_list_immediate_impl) (semaphore_info : VkSubmitInfo)
    (d : FlushDriver) (h : s._has_commands = true) (he : d.EndCommandBuffer = VK_SUCCESS) :
    submissions (flush s semaphore_info d).trace = [flush_submit_info s semaphore_info] := by
  by_cases hs : d.QueueSubmit = VK_SUCCESS
  · rw [flush_success_path s semaphore_info d h he hs]
    obtain ⟨rest, hr, hrest⟩ := flush_rotate_trace
      { s with s_last_immediate_command_list := some s.self, _has_commands := false }
      semaphore_info
      (flush_submit_info
        { s with s_last_immediate_command_list := some s.self, _has_commands := false }
        semaphore_info) d
      [⟨.EndCommandBuffer s._orig, d.EndCommandBuffer⟩,
       ⟨.ResetFences s._device_impl._orig [idx s._cmd_fences s._cmd_index], d.ResetFences⟩,
       ⟨.QueueSubmit s._parent_queue
          [flush_submit_info
            { s with s_last_immediate_command_list := some s.self, _has_commands := false }
            semaphore_info]
          (idx s._cmd_fences s._cmd_index), d.QueueSubmit⟩]
    rw [hr, submissions_append, submissions_of_no_submit rest (fun e hem => (hrest e hem).2)]
    simp [submissions, flush_submit_info_congr]
  · rw [flush_submit_failure s semaphore_info d h he hs]
    simp [submissions, flush_submit_info_congr]

theorem flush_semaphore_info_after_submit (s : command_list_immediate_impl)
    (semaphore_info : VkSubmitInfo) (d : FlushDriver) (h : s._has_commands = true)
    (he : d.EndCommandBuffer = VK_SUCCESS) (hs : d.QueueSubmit = VK_SUCCESS) :
    (flush s semaphore_info d).semaphore_info =
      { semaphore_info with
        waitSemaphoreCount := (flush_submit_info s semaphore_info).signalSemaphoreCount
        pWaitSemaphores := (flush_submit_info s semaphore_info).pSignalSemaphores } := by
  rw [flush_success_path s semaphore_info d h he hs, flush_submit_info_congr]
  unfold flush_rotate
  by_cases hb : d.BeginCommandBuffer = VK_SUCCESS <;> simp [hb]

theorem flush_submit_info_wait (s : command_list_immediate_impl)
    (semaphore_info : VkSubmitInfo) :
    (flush_submit_info s semaphore_info).waitSemaphoreCount =
      semaphore_info.waitSemaphoreCount ∧
    (flush_submit_info s semaphore_info).pWaitSemaphores = semaphore_info.pWaitSemaphores ∧
    (flush_submit_info s semaphore_info).pWaitDstStageMask = semaphore_info.pWaitDstStageMask ∧
    (flush_submit_info s semaphore_info).commandBufferCount = 1 ∧
    (flush_submit_info s semaphore_info).pCommandBuffers = some [s._orig] := by
  unfold flush_submit_info
  split <;> exact ⟨rfl, rfl, rfl, rfl, rfl⟩

/-- C6: a `flush` that reaches submission (pending commands, close succeeds) with
cursor `c` submits exactly one batch; the batch carries the caller's wait
semaphores and stage masks as given and the active command buffer; it signals
exactly the semaphore of slot `c` when the caller's `waitSemaphoreCount` or
`signalSemaphoreCount` is non-zero and nothing otherwise; when the submit
succeeds, the caller's `semaphore_info` has its wait count and wait list
overwritten with what the batch signals (its other fields kept), so that the batch
of a following `flush` given that `semaphore_info` waits on exactly what this one
signaled. -/
theorem flush_chains_semaphores (s : command_list_immediate_impl)
    (semaphore_info : VkSubmitInfo) (d : FlushDriver) (h : s._has_commands = true)
    (he : d.EndCommandBuffer = VK_SUCCESS) :
    ∃ batch : VkSubmitInfo,
      submissions (flush s semaphore_info d).trace = [batch] ∧
      batch.waitSemaphoreCount = semaphore_info.waitSemaphoreCount ∧
      batch.pWaitSemaphores = semaphore_info.pWaitSemaphores ∧
      batch.pWaitDstStageMask = semaphore_info.pWaitDstStageMask ∧
      batch.commandBufferCount = 1 ∧ batch.pCommandBuffers = some [s._orig] ∧
      ((semaphore_info.waitSemaphoreCount ≠ 0 ∨ semaphore_info.signalSemaphoreCount ≠ 0) →
        batch.signalSemaphoreCount = 1 ∧
        batch.pSignalSemaphores = some [idx s._cmd_semaphores s._cmd_index]) ∧
      ((semaphore_info.waitSemaphoreCount = 0 ∧ semaphore_info.signalSemaphoreCount = 0) →
        batch.signalSemaphoreCount = 0 ∧ batch.pSignalSemaphores = none) ∧
      (d.QueueSubmit = VK_SUCCESS →
        (flush s semaphore_info d).semaphore_info =
          { semaphore_info with
            waitSemaphoreCount := batch.signalSemaphoreCount
            pWaitSemaphores := batch.pSignalSemaphores } ∧
        ∀ d2 : FlushDriver, d2.EndCommandBuffer = VK_SUCCESS →
          ∃ batch2 : VkSubmitInfo,
            submissions (flush (record (flush s semaphore_info d).state)
              (flush s semaphore_info d).semaphore_info d2).trace = [batch2] ∧
            batch2.waitSemaphoreCount = batch.signalSemaphoreCount ∧
            batch2.pWaitSemaphores = batch.pSignalSemaphores) := by
  refine ⟨flush_submit_info s semaphore_info, flush_submissions s semaphore_info d h he,
    ?_, ?_, ?_, ?_, ?_, ?_, ?_, ?_⟩
  · exact (flush_submit_info_wait s semaphore_info).1
  · exact (flush_submit_info_wait s semaphore_info).2.1
  · exact (flush_submit_info_wait s semaphore_info).2.2.1
  · exact (flush_submit_info_wait s semaphore_info).2.2.2.1
  · exact (flush_submit_info_wait s semaphore_info).2.2.2.2
  · intro hne
    unfold flush_submit_info
    rw [if_pos hne]
    exact ⟨rfl, rfl⟩
  · intro hz
    unfold flush_submit_info
    rw [if_neg (by omega)]
    exact ⟨rfl, rfl⟩
  · intro hs
    have hinfo := flush_semaphore_info_after_submit s semaphore_info d h he hs
    refine ⟨hinfo, ?_⟩
    intro d2 he2
    refine ⟨_, flush_submissions (record (flush s semaphore_info d).state) _ d2 rfl he2, ?_, ?_⟩
    · rw [(flush_submit_info_wait _ _).1, hinfo]
    · rw [(flush_submit_info_wait _ _).2.1, hinfo]

theorem flush_chains_semaphores_witness :
    flush_assert_orig (record sample_state) ∧
    submissions (flush (record sample_state) sample_signal_request sample_flush_ok).trace =
      [{ pWaitDstStageMask := some [65536], commandBufferCount := 1,
         pCommandBuffers := some [11], signalSemaphoreCount := 1,
         pSignalSemaphores := some [31] }] ∧
    (flush (record sample_state) sample_signal_request sample_flush_ok).semaphore_info =
      { waitSemaphoreCount := 1, pWaitSemaphores := some [31],
        pWaitDstStageMask := some [65536], signalSemaphoreCount := 1 } ∧
    flush_assert_wait_stage
      (flush (record sample_state) sample_signal_request sample_flush_ok).semaphore_info ∧
    ∃ batch : VkSubmitInfo,
      submissions (flush (record sample_state) sample_signal_request sample_flush_ok).trace =
        [batch] ∧
      batch.signalSemaphoreCount = 1 ∧ batch.pSignalSemaphores = some [31] :=
  have h := flush_chains_semaphores (record sample_state) sample_signal_request
    sample_flush_ok (by decide) (by decide)
  ⟨by decide, by decide, by decide, by decide,
    h.elim fun batch hb => ⟨batch, hb.1, hb.2.2.2.2.2.2.1 (Or.inr (by decide))⟩⟩

/-! ### Transient descriptor sets -/

/-- C10: on a device without push descriptors, `push_descriptors` with
`update.count = 0` issues no call (no allocation, no write, no bind); with a
non-zero count its first and only `vkAllocateDescriptorSets` asks for one set from
the transient pool of the slot at the cursor, and it is followed by the
descriptor write and `bind_descriptor_tables` (one table, the allocated set)
exactly when the allocation returns `VK_SUCCESS`; after a failed allocation
nothing else is called. The release control flow does not depend on the asserted
`table`, `binding` and `array_offset` being zero. -/
theorem push_descriptors_transient (s : command_list_immediate_impl) (env : PushEnv)
    (stages : Nat) (layout : Handle) (layout_param : Nat) (update : descriptor_table_update)
    (hk : s._device_impl.KHR_push_descriptor = false) :
    (update.count = 0 →
      (push_descriptors s env stages layout layout_param update).trace = []) ∧
    (update.count ≠ 0 →
      (calls (push_descriptors s env stages layout layout_param update).trace).head? =
        some (.AllocateDescriptorSets s._device_impl._orig
          (idx s._transient_descriptor_pool s._cmd_index) 1
          [env.set_layouts layout layout_param] env.AllocateDescriptorSets.2) ∧
      ((calls (push_descriptors s env stages layout layout_param update).trace).filter
        Call.isAllocateDescriptorSets).length = 1 ∧
      (env.AllocateDescriptorSets.1 = VK_SUCCESS →
        ∃ write : VkWriteDescriptorSet,
          write.dstSet = env.AllocateDescriptorSets.2 ∧
          write.descriptorCount = update.count ∧
          write.dstBinding = update.binding ∧ write.dstArrayElement = update.array_offset ∧
          (calls (push_descriptors s env stages layout layout_param update).trace).tail =
            [.UpdateDescriptorSets s._device_impl._orig [write],
             .bind_descriptor_tables stages layout layout_param 1
               [env.AllocateDescriptorSets.2]]) ∧
      (env.AllocateDescriptorSets.1 ≠ VK_SUCCESS →
        (calls (push_descriptors s env stages layout layout_param update).trace).tail = []) ∧
      (env.AllocateDescriptorSets.1 = VK_SUCCESS ↔
        ∃ c ∈ calls (push_descriptors s env stages layout layout_param update).trace,
          c.isWriteOrBind = true)) := by
  refine ⟨fun h0 => by simp [push_descriptors, hk, h0], fun h0 => ?_⟩
  by_cases ha : env.AllocateDescriptorSets.1 = VK_SUCCESS
  · have ht : calls (push_descriptors s env stages layout layout_param update).trace =
        [.AllocateDescriptorSets s._device_impl._orig
           (idx s._transient_descriptor_pool s._cmd_index) 1
           [env.set_layouts layout layout_param] env.AllocateDescriptorSets.2,
         .UpdateDescriptorSets s._device_impl._orig
           [{ push_descriptors_payload update
                { dstBinding := update.binding, dstArrayElement := update.array_offset,
                  descriptorCount := update.count,
                  descriptorType := env.convert_descriptor_type update.type } with
              dstSet := env.AllocateDescriptorSets.2 }],
         .bind_descriptor_tables stages layout layout_param 1
           [env.AllocateDescriptorSets.2]] := by
      simp [push_descriptors, hk, h0, ha, calls]
    rw [ht]
    refine ⟨rfl, rfl, fun _ => ⟨_, rfl, ?_, ?_, ?_, rfl⟩, fun hne => absurd ha hne, ?_⟩
    · unfold push_descriptors_payload; split <;> rfl
    · unfold push_descriptors_payload; split <;> rfl
    · unfold push_descriptors_payload; split <;> rfl
    · exact ⟨fun _ => ⟨_, List.mem_cons_of_mem _ (List.mem_cons_self _ _), rfl⟩, fun _ => ha⟩
  · have ht : calls (push_descriptors s env stages layout layout_param update).trace =
        [.AllocateDescriptorSets s._device_impl._orig
           (idx s._transient_descriptor_pool s._cmd_index) 1
           [env.set_layouts layout layout_param] env.AllocateDescriptorSets.2] := by
      simp [push_descriptors, hk, h0, ha, calls]
    rw [ht]
    refine ⟨rfl, rfl, fun hs => absurd hs ha, fun _ => rfl, ?_⟩
    constructor
    · intro hs; exact absurd hs ha
    · rintro ⟨c, hc, hw⟩
      simp at hc
      subst hc
      simp [Call.isWriteOrBind] at hw

theorem push_descriptors_transient_witness :
    push_descriptors_asserts sample_update ∧
    calls (push_descriptors (flush (record sample_state) {} sample_flush_ok).state
      (sample_push_env (-1)) 1 5 0 sample_update).trace =
      [.AllocateDescriptorSets 1 42 1 [50] 61] ∧
    (calls (push_descriptors (flush (record sample_state) {} sample_flush_ok).state
      (sample_push_env 0) 1 5 0 sample_update).trace).head? =
      some (.AllocateDescriptorSets 1 42 1 [50] 61) ∧
    (push_descriptors sample_state (sample_push_env 0) 1 5 0
      { sample_update with count := 0 }).trace = [] :=
  ⟨by decide, by decide,
   ((push_descriptors_transient (flush (record sample_state) {} sample_flush_ok).state
      (sample_push_env 0) 1 5 0 sample_update (by decide)).2 (by decide)).1.trans (by decide),
   by decide⟩


/-! ### Construction -/

theorem isBegin_of_isCheckedAllocation (c : Call) (h : c.isCheckedAllocation = true) :
    c.isBegin = false := by
  cases c <;> simp [Call.isCheckedAllocation] at h <;> rfl

theorem ctorPending_push (a : CtorResult) (e : Event) (st : command_list_immediate_impl)
    (lg : List String) (h : CtorPending a) (hb : e.call.isBegin = false)
    (hc : e.call.isCheckedAllocation = true → e.result = VK_SUCCESS)
    (h1 : st._orig = a.state._orig) (h2 : st._cmd_index = a.state._cmd_index) :
    CtorPending ⟨st, a.trace ++ [e], lg⟩ := by
  obtain ⟨p1, p2, p3, p4⟩ := h
  refine ⟨h1.trans p1, h2.trans p2, ?_, ?_⟩
  · intro x hx
    rcases List.mem_append.1 hx with hx | hx
    · exact p3 x hx
    · simp at hx; subst hx; exact hb
  · intro x hx hxc
    rcases List.mem_append.1 hx with hx | hx
    · exact p4 x hx hxc
    · simp at hx; subst hx; exact hc hxc

theorem ctorAborted_push (a : CtorResult) (e : Event) (st : command_list_immediate_impl)
    (lg : List String) (h : CtorPending a) (hc : e.call.isCheckedAllocation = true)
    (hr : e.result ≠ VK_SUCCESS) (h1 : st._orig = a.state._orig) :
    CtorAborted ⟨st, a.trace ++ [e], lg⟩ := by
  obtain ⟨p1, -, p3, p4⟩ := h
  refine ⟨h1.trans p1, ?_, a.trace, e, rfl, hc, hr, p4⟩
  intro x hx
  rcases List.mem_append.1 hx with hx | hx
  · exact p3 x hx
  · simp at hx; subst hx; exact isBegin_of_isCheckedAllocation _ hc

/-- One pass of the constructor's loop either goes on, with the fence and the
semaphore of the slot created, or returns at the failed one of the two. -/
theorem ctor_slot_spec (d : CtorDriver) (i : Nat) (a : CtorResult) (h : CtorPending a) :
    match ctor_slot d i a with
    | .next b => CtorPending b ∧ b.state._cmd_buffers = a.state._cmd_buffers ∧
        (d.CreateFence i).1 = VK_SUCCESS ∧ (d.CreateSemaphore i).1 = VK_SUCCESS
    | .ret b => CtorAborted b ∧
        ((d.CreateFence i).1 ≠ VK_SUCCESS ∨ (d.CreateSemaphore i).1 ≠ VK_SUCCESS) := by
  have hdbg : ∃ a1 : CtorResult, CtorPending a1 ∧ a1.state = a.state ∧
      (if a.state._device_impl.SetDebugUtilsObjectNameEXT = true then
        ({ a with
          trace := a.trace ++
            [⟨.SetDebugUtilsObjectNameEXT a.state._device_impl._orig
              (idx a.state._cmd_buffers i) i, d.SetDebugUtilsObjectNameEXT i⟩] } : CtorResult)
      else a) = a1 := by
    by_cases hd : a.state._device_impl.SetDebugUtilsObjectNameEXT = true
    · rw [if_pos hd]
      exact ⟨_, ctorPending_push a
        ⟨.SetDebugUtilsObjectNameEXT a.state._device_impl._orig
          (idx a.state._cmd_buffers i) i, d.SetDebugUtilsObjectNameEXT i⟩
        a.state a.log h rfl (fun hc => by cases hc) rfl rfl, rfl, rfl⟩
    · rw [if_neg hd]
      exact ⟨a, h, rfl, rfl⟩
  obtain ⟨a1, h1, hst, ha1⟩ := hdbg
  unfold ctor_slot
  simp only [ha1]
  by_cases hf : (d.CreateFence i).1 = VK_SUCCESS
  · have h2 := ctorPending_push a1
      ⟨.CreateFence a.state._device_impl._orig VK_FENCE_CREATE_SIGNALED_BIT (d.CreateFence i).2,
        (d.CreateFence i).1⟩
      { a1.state with _cmd_fences := setIdx a1.state._cmd_fences i (d.CreateFence i).2 }
      a1.log h1 rfl (fun _ => hf) rfl rfl
    by_cases hs : (d.CreateSemaphore i).1 = VK_SUCCESS
    · have h3 := ctorPending_push _
        ⟨.CreateSemaphore a.state._device_impl._orig (d.CreateSemaphore i).2,
          (d.CreateSemaphore i).1⟩
        { a1.state with
          _cmd_fences := setIdx a1.state._cmd_fences i (d.CreateFence i).2
          _cmd_semaphores := setIdx a1.state._cmd_semaphores i (d.CreateSemaphore i).2 }
        a1.log h2 rfl (fun _ => hs) rfl rfl
      by_cases hk : a.state._device_impl.KHR_push_descriptor = true
      · rw [if_neg (not_not.2 hf), if_neg (not_not.2 hs), if_neg (by simp [hk])]
        exact ⟨h3, by rw [← hst], hf, hs⟩
      · have h4 := fun lg => ctorPending_push _
          ⟨.CreateDescriptorPool a.state._device_impl._orig 32 pool_sizes
            (d.CreateDescriptorPool i).2, (d.CreateDescriptorPool i).1⟩
          { a1.state with
            _cmd_fences := setIdx a1.state._cmd_fences i (d.CreateFence i).2
            _cmd_semaphores := setIdx a1.state._cmd_semaphores i (d.CreateSemaphore i).2
            _transient_descriptor_pool :=
              setIdx a1.state._transient_descriptor_pool i (d.CreateDescriptorPool i).2 }
          lg h3 rfl (fun hc => by cases hc) rfl rfl
        rw [if_neg (not_not.2 hf), if_neg (not_not.2 hs), if_pos (by simpa using hk)]
        by_cases hp : (d.CreateDescriptorPool i).1 = VK_SUCCESS
        · rw [if_neg (not_not.2 hp)]
          exact ⟨h4 _, by rw [← hst], hf, hs⟩
        · rw [if_pos hp]
          exact ⟨h4 _, by rw [← hst], hf, hs⟩
    · rw [if_neg (not_not.2 hf), if_pos hs]
      exact ⟨ctorAborted_push _ _ _ _ h2 rfl hs rfl, Or.inr hs⟩
  · rw [if_pos hf]
    exact ⟨ctorAborted_push _ _ _ _ h1 rfl hf rfl, Or.inl hf⟩


/-- The constructor's loop from slot `i` with `n` passes left either runs through,
with the fences and semaphores of slots `i .. i + n - 1` created, or returns at
the first failed one. -/
theorem ctor_slots_spec (d : CtorDriver) (n : Nat) :
    ∀ (i : Nat) (a : CtorResult), CtorPending a →
    match ctor_slots d n i a with
    | .next b => CtorPending b ∧ b.state._cmd_buffers = a.state._cmd_buffers ∧
        ∀ j, i ≤ j → j < i + n →
          (d.CreateFence j).1 = VK_SUCCESS ∧ (d.CreateSemaphore j).1 = VK_SUCCESS
    | .ret b => CtorAborted b ∧
        ∃ j, i ≤ j ∧ j < i + n ∧
          ((d.CreateFence j).1 ≠ VK_SUCCESS ∨ (d.CreateSemaphore j).1 ≠ VK_SUCCESS) := by
  induction n with
  | zero =>
    intro i a h
    simp only [ctor_slots]
    exact ⟨h, trivial, fun j h1 h2 => by omega⟩
  | succ n ih =>
    intro i a h
    have hs := ctor_slot_spec d i a h
    simp only [ctor_slots]
    cases hslot : ctor_slot d i a with
    | ret b =>
      rw [hslot] at hs
      exact ⟨hs.1, i, le_refl _, by omega, hs.2⟩
    | next b =>
      rw [hslot] at hs
      have hrec := ih (i + 1) b hs.1
      simp only
      cases hrest : ctor_slots d n (i + 1) b with
      | ret c =>
        rw [hrest] at hrec
        obtain ⟨hc, j, hj1, hj2, hj3⟩ := hrec
        exact ⟨hc, j, by omega, by omega, hj3⟩
      | next c =>
        rw [hrest] at hrec
        refine ⟨hrec.1, hrec.2.1.trans hs.2.1, ?_⟩
        intro j hj1 hj2
        by_cases hji : j = i
        · subst hji; exact hs.2.2
        · exact hrec.2.2 j (by omega) (by omega)

theorem ctorPending_after_buffers (self : Nat) (device : device_impl)
    (queue_family_index : Nat) (queue : Handle) (last : Option Nat) (d : CtorDriver)
    (hp : d.CreateCommandPool.1 = VK_SUCCESS) (hb : d.AllocateCommandBuffers.1 = VK_SUCCESS) :
    CtorPending
      ⟨{ ctor_init self device queue last with
          _cmd_pool := d.CreateCommandPool.2, _cmd_buffers := d.AllocateCommandBuffers.2 },
        [⟨.CreateCommandPool device._orig VK_COMMAND_POOL_CREATE_RESET_COMMAND_BUFFER_BIT
            queue_family_index d.CreateCommandPool.2, d.CreateCommandPool.1⟩] ++
        [⟨.AllocateCommandBuffers device._orig d.CreateCommandPool.2
            VK_COMMAND_BUFFER_LEVEL_PRIMARY NUM_COMMAND_FRAMES d.AllocateCommandBuffers.2,
            d.AllocateCommandBuffers.1⟩], []⟩ := by
  refine ⟨rfl, rfl, ?_, ?_⟩
  · intro e he
    simp at he
    rcases he with rfl | rfl <;> rfl
  · intro e he _
    simp at he
    rcases he with rfl | rfl
    · exact hp
    · exact hb

/-- What the constructor leaves: stopped at the first failed checked allocation
when there is one, and otherwise the loop has run through and slot `0` is opened,
which makes the object ready exactly when that `vkBeginCommandBuffer` succeeds. -/
theorem construct_spec (self : Nat) (device : device_impl) (queue_family_index : Nat)
    (queue : Handle) (last : Option Nat) (d : CtorDriver) :
    (¬ d.allocations_ok ∧
      CtorAborted (construct self device queue_family_index queue last d)) ∨
    (d.allocations_ok ∧
      (construct self device queue_family_index queue last d).state._cmd_index = 0 ∧
      (construct self device queue_family_index queue last d).state._cmd_buffers =
        d.AllocateCommandBuffers.2 ∧
      (construct self device queue_family_index queue last d).trace.getLast? =
        some ⟨.BeginCommandBuffer (idx d.AllocateCommandBuffers.2 0)
          VK_COMMAND_BUFFER_USAGE_ONE_TIME_SUBMIT_BIT, d.BeginCommandBuffer⟩ ∧
      (construct self device queue_family_index queue last d).state._orig =
        (if d.BeginCommandBuffer = VK_SUCCESS then idx d.AllocateCommandBuffers.2 0
          else VK_NULL_HANDLE)) := by
  unfold construct
  by_cases hp : d.CreateCommandPool.1 = VK_SUCCESS
  · by_cases hb : d.AllocateCommandBuffers.1 = VK_SUCCESS
    · rw [if_neg (not_not.2 hp), if_neg (not_not.2 hb)]
      have hpend := ctorPending_after_buffers self device queue_family_index queue last d hp hb
      have hloop := ctor_slots_spec d NUM_COMMAND_FRAMES 0 _ hpend
      cases hrun : ctor_slots d NUM_COMMAND_FRAMES 0
        ⟨{ ctor_init self device queue last with
            _cmd_pool := d.CreateCommandPool.2, _cmd_buffers := d.AllocateCommandBuffers.2 },
          [⟨.CreateCommandPool device._orig VK_COMMAND_POOL_CREATE_RESET_COMMAND_BUFFER_BIT
              queue_family_index d.CreateCommandPool.2, d.CreateCommandPool.1⟩] ++
          [⟨.AllocateCommandBuffers device._orig d.CreateCommandPool.2
              VK_COMMAND_BUFFER_LEVEL_PRIMARY NUM_COMMAND_FRAMES d.AllocateCommandBuffers.2,
              d.AllocateCommandBuffers.1⟩], []⟩ with
      | ret b =>
        rw [hrun] at hloop
        left
        obtain ⟨hab, j, -, hj, hfail⟩ := hloop
        refine ⟨?_, hab⟩
        rintro ⟨-, -, h3, h4⟩
        rcases hfail with hfail | hfail
        · exact hfail (h3 j (by simpa using hj))
        · exact hfail (h4 j (by simpa using hj))
      | next b =>
        rw [hrun] at hloop
        right
        obtain ⟨⟨horig, hidx, -, -⟩, hbufs, hall⟩ := hloop
        have hbufs2 : b.state._cmd_buffers = d.AllocateCommandBuffers.2 := hbufs
        refine ⟨⟨hp, hb, fun i hi => (hall i (Nat.zero_le _) (by simpa using hi)).1,
          fun i hi => (hall i (Nat.zero_le _) (by simpa using hi)).2⟩, ?_⟩
        by_cases hbeg : d.BeginCommandBuffer = VK_SUCCESS
        · simp only [hbeg, ne_eq, not_true_eq_false, if_false, if_true]
          refine ⟨hidx, hbufs2, ?_, ?_⟩
          · simp [hidx, hbufs2]
          · simp [hidx, hbufs2]
        · simp only [hbeg, ne_eq, not_false_eq_true, if_false, if_true]
          refine ⟨hidx, hbufs2, ?_, ?_⟩
          · simp [hidx, hbufs2]
          · exact horig
    · left
      rw [if_neg (not_not.2 hp), if_pos hb]
      refine ⟨fun h => hb h.2.1, ?_⟩
      have hpend : CtorPending
          ⟨{ ctor_init self device queue last with _cmd_pool := d.CreateCommandPool.2 },
            [⟨.CreateCommandPool device._orig VK_COMMAND_POOL_CREATE_RESET_COMMAND_BUFFER_BIT
                queue_family_index d.CreateCommandPool.2, d.CreateCommandPool.1⟩], []⟩ := by
        refine ⟨rfl, rfl, ?_, ?_⟩
        · intro e he
          simp at he
          subst he
          rfl
        · intro e he _
          simp at he
          subst he
          exact hp
      exact ctorAborted_push _
        ⟨.AllocateCommandBuffers device._orig d.CreateCommandPool.2
          VK_COMMAND_BUFFER_LEVEL_PRIMARY NUM_COMMAND_FRAMES d.AllocateCommandBuffers.2,
          d.AllocateCommandBuffers.1⟩ _ _ hpend rfl hb rfl
  · left
    rw [if_pos hp]
    refine ⟨fun h => hp h.1, ?_⟩
    have hpend : CtorPending ⟨ctor_init self device queue last, [], []⟩ := by
      refine ⟨rfl, rfl, ?_, ?_⟩
      · intro e he; cases he
      · intro e he; cases he
    exact ctorAborted_push _
      ⟨.CreateCommandPool device._orig VK_COMMAND_POOL_CREATE_RESET_COMMAND_BUFFER_BIT
        queue_family_index d.CreateCommandPool.2, d.CreateCommandPool.1⟩ _ _ hpend rfl hp rfl


/-- C9, counterexample: without push descriptors, with every other call
succeeding, a failed `vkCreateDescriptorPool` for slot `0` does not stop the
constructor: the fence of slot `1` is created right after it, the last call opens
slot `0` for recording, and the object is ready with `_orig` the command buffer
of slot `0`. -/
theorem construct_goes_on_after_descriptor_pool_failure :
    sample_device.KHR_push_descriptor = false ∧
    (sample_ctor_driver_pool_fails.CreateDescriptorPool 0).1 ≠ VK_SUCCESS ∧
    (construct 100 sample_device 0 2 none sample_ctor_driver_pool_fails).trace[4]? =
      some ⟨.CreateDescriptorPool 1 32 pool_sizes 0, -1⟩ ∧
    (construct 100 sample_device 0 2 none sample_ctor_driver_pool_fails).trace[5]? =
      some ⟨.CreateFence 1 VK_FENCE_CREATE_SIGNALED_BIT 22, VK_SUCCESS⟩ ∧
    ((construct 100 sample_device 0 2 none sample_ctor_driver_pool_fails).trace.filter
      fun e => e.call.isAllocation).length = 14 ∧
    (construct 100 sample_device 0 2 none sample_ctor_driver_pool_fails).trace.getLast? =
      some ⟨.BeginCommandBuffer 11 VK_COMMAND_BUFFER_USAGE_ONE_TIME_SUBMIT_BIT, VK_SUCCESS⟩ ∧
    (construct 100 sample_device 0 2 none sample_ctor_driver_pool_fails).state._orig = 11 ∧
    (construct 100 sample_device 0 2 none sample_ctor_driver_pool_fails).state._orig ≠
      VK_NULL_HANDLE := by
  decide

/-- C9, as amended: when the command pool, the command buffers, a slot's fence or
a slot's semaphore fails to be allocated, the constructor returns at the first
such failure: that call is the last one issued (no later allocation), every
checked allocation before it succeeded, no `vkBeginCommandBuffer` is issued and
`_orig` stays `VK_NULL_HANDLE`. When those four kinds all succeed, whatever
`vkCreateDescriptorPool` returns, the constructor goes on to open slot `0` and the
object is ready exactly when that `vkBeginCommandBuffer` succeeds. -/
theorem construct_aborts_at_failed_checked_allocation (self : Nat) (device : device_impl)
    (queue_family_index : Nat) (queue : Handle) (last : Option Nat) (d : CtorDriver) :
    (¬ d.allocations_ok →
      (construct self device queue_family_index queue last d).state._orig = VK_NULL_HANDLE ∧
      (∀ e ∈ (construct self device queue_family_index queue last d).trace,
        e.call.isBegin = false) ∧
      ∃ pre e, (construct self device queue_family_index queue last d).trace = pre ++ [e] ∧
        e.call.isCheckedAllocation = true ∧ e.result ≠ VK_SUCCESS ∧
        ∀ x ∈ pre, x.call.isCheckedAllocation = true → x.result = VK_SUCCESS) ∧
    (d.allocations_ok →
      (construct self device queue_family_index queue last d).trace.getLast? =
        some ⟨.BeginCommandBuffer (idx d.AllocateCommandBuffers.2 0)
          VK_COMMAND_BUFFER_USAGE_ONE_TIME_SUBMIT_BIT, d.BeginCommandBuffer⟩ ∧
      (construct self device queue_family_index queue last d).state._orig =
        (if d.BeginCommandBuffer = VK_SUCCESS then idx d.AllocateCommandBuffers.2 0
          else VK_NULL_HANDLE)) := by
  rcases construct_spec self device queue_family_index queue last d with
    ⟨hno, hab⟩ | ⟨hok, -, -, hlast, horig⟩
  · exact ⟨fun _ => hab, fun h => absurd h hno⟩
  · exact ⟨fun h => absurd hok h, fun _ => ⟨hlast, horig⟩⟩

theorem construct_aborts_at_failed_checked_allocation_witness :
    ¬ sample_ctor_driver_fence_fails.allocations_ok ∧
    (construct 100 sample_device 0 2 none sample_ctor_driver_fence_fails).state._orig =
      VK_NULL_HANDLE ∧
    (construct 100 sample_device 0 2 none sample_ctor_driver_fence_fails).trace.getLast? =
      some ⟨.CreateFence 1 VK_FENCE_CREATE_SIGNALED_BIT 0, -1⟩ ∧
    (construct 100 sample_device 0 2 none sample_ctor_driver_pool_fails).state._orig = 11 :=
  ⟨by decide,
   ((construct_aborts_at_failed_checked_allocation 100 sample_device 0 2 none
      sample_ctor_driver_fence_fails).1 (by decide)).1,
   by decide,
   ((construct_aborts_at_failed_checked_allocation 100 sample_device 0 2 none
      sample_ctor_driver_pool_fails).2 (by decide)).2.trans (by decide)⟩


/-! ### The active handle and the cursor -/

theorem construct_ready_orig (self : Nat) (device : device_impl) (queue_family_index : Nat)
    (queue : Handle) (last : Option Nat) (d : CtorDriver) (h : d.all_checked_ok) :
    (construct self device queue_family_index queue last d).state._cmd_index = 0 ∧
    (construct self device queue_family_index queue last d).state._orig =
      idx (construct self device queue_family_index queue last d).state._cmd_buffers 0 := by
  rcases construct_spec self device queue_family_index queue last d with
    ⟨hno, -⟩ | ⟨-, hidx, hbufs, -, horig⟩
  · exact absurd ⟨h.1, h.2.1, h.2.2.1, h.2.2.2.1⟩ hno
  · refine ⟨hidx, ?_⟩
    rw [horig, hbufs, if_pos h.2.2.2.2]

theorem flush_orig_cursor_cases (s : command_list_immediate_impl)
    (semaphore_info : VkSubmitInfo) (d : FlushDriver) :
    ((flush s semaphore_info d).state._orig = s._orig ∧
      (flush s semaphore_info d).state._cmd_index = s._cmd_index ∧
      (flush s semaphore_info d).state._cmd_buffers = s._cmd_buffers) ∨
    ((flush s semaphore_info d).state._orig =
        idx (flush s semaphore_info d).state._cmd_buffers
          (flush s semaphore_info d).state._cmd_index ∧
      (flush s semaphore_info d).state._cmd_index = (s._cmd_index + 1) % 4) ∨
    (reopen_fails s d ∧ (flush s semaphore_info d).ret = false ∧
      (flush s semaphore_info d).state._orig = s._orig ∧
      (flush s semaphore_info d).state._cmd_index = (s._cmd_index + 1) % 4) := by
  by_cases h : s._has_commands = true
  · by_cases he : d.EndCommandBuffer = VK_SUCCESS
    · by_cases hs : d.QueueSubmit = VK_SUCCESS
      · have hrot := flush_rotate_state
          { s with s_last_immediate_command_list := some s.self, _has_commands := false }
          semaphore_info
          (flush_submit_info
            { s with s_last_immediate_command_list := some s.self, _has_commands := false }
            semaphore_info) d
          [⟨.EndCommandBuffer s._orig, d.EndCommandBuffer⟩,
           ⟨.ResetFences s._device_impl._orig [idx s._cmd_fences s._cmd_index], d.ResetFences⟩,
           ⟨.QueueSubmit s._parent_queue
              [flush_submit_info
                { s with s_last_immediate_command_list := some s.self, _has_commands := false }
                semaphore_info]
              (idx s._cmd_fences s._cmd_index), d.QueueSubmit⟩]
        rw [flush_success_path s semaphore_info d h he hs]
        obtain ⟨h1, -, h3, -, -, h6, h7⟩ := hrot
        by_cases hb : d.BeginCommandBuffer = VK_SUCCESS
        · right; left
          refine ⟨?_, h1⟩
          rw [h7, h3, h1, if_pos hb]
        · right; right
          refine ⟨⟨h, he, hs, hb⟩, ?_, ?_, h1⟩
          · rw [h6]; simp [hb]
          · rw [h7, if_neg hb]
      · left
        rw [flush_submit_failure s semaphore_info d h he hs]
        exact ⟨rfl, rfl, rfl⟩
    · left
      rw [flush_close_failure s semaphore_info d h he]
      exact ⟨rfl, rfl, rfl⟩
  · left
    have h0 : s._has_commands = false := by simpa using h
    rw [flush_of_not_has_commands s h0]
    exact ⟨rfl, rfl, rfl⟩

theorem reachable_orig_is_cursor_slot (s : command_list_immediate_impl)
    (h : ReachableBy (fun s d => ¬ reopen_fails s d) s) :
    s._orig = idx s._cmd_buffers s._cmd_index := by
  induction h with
  | construct self device queue_family_index queue last d hok =>
    have := construct_ready_orig self device queue_family_index queue last d hok
    rw [this.2, this.1]
  | record s _ ih => exact ih
  | flush s semaphore_info d _ hallowed ih =>
    rcases flush_orig_cursor_cases s semaphore_info d with ⟨h1, h2, h3⟩ | ⟨h1, -⟩ | ⟨hf, -⟩
    · rw [h1, h2, h3]; exact ih
    · exact h1
    · exact absurd hf hallowed

/-- C8, counterexample: the sample object, after one recorded command and a
`flush` whose close and submit succeed and whose reopen fails, is reachable, has
its cursor on slot `1` (command buffer `12`) and its active handle still on the
submitted command buffer `11` of slot `0`; the next `flush` after another
recorded command closes and submits buffer `11` and opens buffer `13` of slot
`2`, never the buffer of slot `1`. -/
theorem flush_reopen_failure_leaves_previous_handle :
    ReachableBy (fun _ _ => True) sample_state_reopen_failed ∧
    (flush (record sample_state) {} sample_flush_reopen_fails).ret = false ∧
    sample_state_reopen_failed._cmd_index = 1 ∧
    idx sample_state_reopen_failed._cmd_buffers sample_state_reopen_failed._cmd_index = 12 ∧
    sample_state_reopen_failed._orig = 11 ∧
    sample_state_reopen_failed._orig ≠
      idx sample_state_reopen_failed._cmd_buffers sample_state_reopen_failed._cmd_index ∧
    (calls (flush (record sample_state_reopen_failed) {} sample_flush_ok).trace).filter
      (fun c => c.isBegin || c matches .EndCommandBuffer ..) =
      [.EndCommandBuffer 11, .BeginCommandBuffer 13 VK_COMMAND_BUFFER_USAGE_ONE_TIME_SUBMIT_BIT] :=
  ⟨ReachableBy.flush _ {} sample_flush_reopen_fails
      (ReachableBy.record _
        (ReachableBy.construct 100 sample_device 0 2 none sample_ctor_driver (by decide)))
      trivial,
    by decide, by decide, by decide, by decide, by decide, by decide⟩

/-- C8, as amended: in every state reached from a successful construction by
recording commands and `flush` calls none of which fails at the reopen step, the
active handle is the command buffer of the slot at the cursor. A `flush` that
fails at the reopen step returns false with the cursor advanced and the active
handle left on the previous slot's buffer; from any state, a `flush` with pending
commands that returns true leaves the active handle on the command buffer of the
slot at the cursor. -/
theorem active_handle_is_cursor_slot :
    (∀ s, ReachableBy (fun s d => ¬ reopen_fails s d) s →
      s._orig = idx s._cmd_buffers s._cmd_index) ∧
    (∀ s semaphore_info d, reopen_fails s d →
      (flush s semaphore_info d).ret = false ∧
      (flush s semaphore_info d).state._orig = s._orig ∧
      (flush s semaphore_info d).state._cmd_index = (s._cmd_index + 1) % 4) ∧
    (∀ s semaphore_info d, s._has_commands = true → (flush s semaphore_info d).ret = true →
      (flush s semaphore_info d).state._orig =
        idx (flush s semaphore_info d).state._cmd_buffers
          (flush s semaphore_info d).state._cmd_index) := by
  refine ⟨reachable_orig_is_cursor_slot, ?_, ?_⟩
  · intro s semaphore_info d hf
    obtain ⟨h, he, hs, hb⟩ := hf
    have hrot := flush_rotate_state
      { s with s_last_immediate_command_list := some s.self, _has_commands := false }
      semaphore_info
      (flush_submit_info
        { s with s_last_immediate_command_list := some s.self, _has_commands := false }
        semaphore_info) d
      [⟨.EndCommandBuffer s._orig, d.EndCommandBuffer⟩,
       ⟨.ResetFences s._device_impl._orig [idx s._cmd_fences s._cmd_index], d.ResetFences⟩,
       ⟨.QueueSubmit s._parent_queue
          [flush_submit_info
            { s with s_last_immediate_command_list := some s.self, _has_commands := false }
            semaphore_info]
          (idx s._cmd_fences s._cmd_index), d.QueueSubmit⟩]
    rw [flush_success_path s semaphore_info d h he hs]
    obtain ⟨h1, -, -, -, -, h6, h7⟩ := hrot
    refine ⟨?_, ?_, h1⟩
    · rw [h6]; simp [hb]
    · rw [h7, if_neg hb]
  · intro s semaphore_info d h hr
    have hc := flush_ret_true_cursor s semaphore_info d h hr
    rw [hc.2, hc.1, (flush_keeps_arrays s semaphore_info d).2.1]

theorem active_handle_is_cursor_slot_witness :
    (flush (record sample_state) {} sample_flush_ok).state._orig = 12 ∧
    (flush (record sample_state) {} sample_flush_ok).state._cmd_index = 1 ∧
    (flush (record sample_state_reopen_failed) {} sample_flush_ok).state._orig = 13 ∧
    (flush (record sample_state_reopen_failed) {} sample_flush_ok).state._cmd_index = 2 :=
  ⟨(active_handle_is_cursor_slot.1 _
      (ReachableBy.flush _ {} sample_flush_ok
        (ReachableBy.record _
          (ReachableBy.construct 100 sample_device 0 2 none sample_ctor_driver (by decide)))
        (by decide))).trans (by decide),
    by decide,
    (active_handle_is_cursor_slot.2.2 (record sample_state_reopen_failed) {} sample_flush_ok
      (by decide) (by decide)).trans (by decide),
    by decide⟩


/-! ### Fences -/

theorem fence_run_append (fm : FenceMap) (t u : List Event) :
    fence_run fm (t ++ u) = fence_run (fence_run fm t) u := by
  simp [fence_run]

theorem fence_run_cons (fm : FenceMap) (e : Event) (es : List Event) :
    fence_run fm (e :: es) = fence_run (fence_step fm e) es := rfl

theorem fence_step_of_not_touching (fm : FenceMap) (e : Event)
    (h : e.call.touchesFences = false) : fence_step fm e = fm := by
  obtain ⟨c, r⟩ := e
  cases c <;> simp [Call.touchesFences] at h <;> rfl

theorem fence_run_of_not_touching (t : List Event) :
    ∀ fm, (∀ e ∈ t, e.call.touchesFences = false) → fence_run fm t = fm := by
  induction t with
  | nil => intro fm _; rfl
  | cons e t ih =>
    intro fm h
    rw [fence_run_cons, fence_step_of_not_touching fm e (h e (List.mem_cons_self _ _))]
    exact ih fm (fun x hx => h x (List.mem_cons_of_mem _ hx))

theorem idx_setIdx_self (xs : List Handle) (i : Nat) (h : Handle) (hi : i < xs.length) :
    idx (setIdx xs i h) i = h := by
  simp [idx, setIdx, hi]

theorem idx_setIdx_ne (xs : List Handle) (i j : Nat) (h : Handle) (hij : i ≠ j) :
    idx (setIdx xs i h) j = idx xs j := by
  simp [idx, setIdx, hij]

theorem ctorFences_push (i : Nat) (fm0 : FenceMap) (a : CtorResult) (e : Event)
    (st : command_list_immediate_impl) (lg : List String) (h : CtorFences i fm0 a)
    (he : e.call.touchesFences = false) (hst : st._cmd_fences = a.state._cmd_fences) :
    CtorFences i fm0 ⟨st, a.trace ++ [e], lg⟩ := by
  obtain ⟨hlen, hsig⟩ := h
  refine ⟨by rw [← hlen]; exact congrArg List.length hst, ?_⟩
  intro j hj
  show fence_run fm0 (a.trace ++ [e]) (idx st._cmd_fences j) = .signaled
  rw [fence_run_append, fence_run_of_not_touching [e] _ (by simpa using he), hst]
  exact hsig j hj

theorem ctorFences_push_fence (i : Nat) (fm0 : FenceMap) (a : CtorResult) (device h : Handle)
    (r : VkResult) (st : command_list_immediate_impl) (lg : List String)
    (hinv : CtorFences i fm0 a) (hi : i < NUM_COMMAND_FRAMES) (hr : r = VK_SUCCESS)
    (hst : st._cmd_fences = setIdx a.state._cmd_fences i h) :
    CtorFences (i + 1) fm0
      ⟨st, a.trace ++ [⟨.CreateFence device VK_FENCE_CREATE_SIGNALED_BIT h, r⟩], lg⟩ := by
  subst hr
  obtain ⟨hlen, hsig⟩ := hinv
  refine ⟨by rw [← hlen]; show st._cmd_fences.length = _; rw [hst]; simp [setIdx], ?_⟩
  intro j hj
  show fence_run fm0 (a.trace ++ [⟨.CreateFence device VK_FENCE_CREATE_SIGNALED_BIT h,
    VK_SUCCESS⟩]) (idx st._cmd_fences j) = .signaled
  rw [fence_run_append, hst]
  simp only [fence_run, List.foldl_cons, List.foldl_nil, fence_step, if_true]
  by_cases hji : j = i
  · subst hji
    rw [idx_setIdx_self _ _ _ (by rw [hlen]; exact hi)]
    simp
  · rw [idx_setIdx_ne _ _ _ _ (fun h0 => hji h0.symm)]
    by_cases hh : idx a.state._cmd_fences j = h
    · rw [hh]; simp
    · rw [Function.update_noteq hh]
      exact hsig j (by omega)

theorem ctor_slot_fences (d : CtorDriver) (i : Nat) (fm0 : FenceMap) (a : CtorResult)
    (hi : i < NUM_COMMAND_FRAMES) (h : CtorFences i fm0 a) :
    match ctor_slot d i a with
    | .next b => CtorFences (i + 1) fm0 b
    | .ret _ => True := by
  have hdbg : ∃ a1 : CtorResult, CtorFences i fm0 a1 ∧ a1.state = a.state ∧
      (if a.state._device_impl.SetDebugUtilsObjectNameEXT = true then
        ({ a with
          trace := a.trace ++
            [⟨.SetDebugUtilsObjectNameEXT a.state._device_impl._orig
              (idx a.state._cmd_buffers i) i, d.SetDebugUtilsObjectNameEXT i⟩] } : CtorResult)
      else a) = a1 := by
    by_cases hd : a.state._device_impl.SetDebugUtilsObjectNameEXT = true
    · rw [if_pos hd]
      exact ⟨_, ctorFences_push i fm0 a
        ⟨.SetDebugUtilsObjectNameEXT a.state._device_impl._orig
          (idx a.state._cmd_buffers i) i, d.SetDebugUtilsObjectNameEXT i⟩
        a.state a.log h rfl rfl, rfl, rfl⟩
    · rw [if_neg hd]
      exact ⟨a, h, rfl, rfl⟩
  obtain ⟨a1, h1, hst, ha1⟩ := hdbg
  unfold ctor_slot
  simp only [ha1]
  by_cases hf : (d.CreateFence i).1 = VK_SUCCESS
  · have h2 := ctorFences_push_fence i fm0 a1 a.state._device_impl._orig (d.CreateFence i).2
      (d.CreateFence i).1
      { a1.state with _cmd_fences := setIdx a1.state._cmd_fences i (d.CreateFence i).2 }
      a1.log h1 hi hf rfl
    by_cases hs : (d.CreateSemaphore i).1 = VK_SUCCESS
    · have h3 := ctorFences_push (i + 1) fm0 _
        ⟨.CreateSemaphore a.state._device_impl._orig (d.CreateSemaphore i).2,
          (d.CreateSemaphore i).1⟩
        { a1.state with
          _cmd_fences := setIdx a1.state._cmd_fences i (d.CreateFence i).2
          _cmd_semaphores := setIdx a1.state._cmd_semaphores i (d.CreateSemaphore i).2 }
        a1.log h2 rfl rfl
      by_cases hk : a.state._device_impl.KHR_push_descriptor = true
      · rw [if_neg (not_not.2 hf), if_neg (not_not.2 hs), if_neg (by simp [hk])]
        exact h3
      · have h4 := fun lg => ctorFences_push (i + 1) fm0 _
          ⟨.CreateDescriptorPool a.state._device_impl._orig 32 pool_sizes
            (d.CreateDescriptorPool i).2, (d.CreateDescriptorPool i).1⟩
          { a1.state with
            _cmd_fences := setIdx a1.state._cmd_fences i (d.CreateFence i).2
            _cmd_semaphores := setIdx a1.state._cmd_semaphores i (d.CreateSemaphore i).2
            _transient_descriptor_pool :=
              setIdx a1.state._transient_descriptor_pool i (d.CreateDescriptorPool i).2 }
          lg h3 rfl rfl
        rw [if_neg (not_not.2 hf), if_neg (not_not.2 hs), if_pos (by simpa using hk)]
        by_cases hp : (d.CreateDescriptorPool i).1 = VK_SUCCESS
        · rw [if_neg (not_not.2 hp)]
          exact h4 _
        · rw [if_pos hp]
          exact h4 _
    · rw [if_neg (not_not.2 hf), if_pos hs]
      trivial
  · rw [if_pos hf]
    trivial

theorem ctor_slots_fences (d : CtorDriver) (fm0 : FenceMap) (n : Nat) :
    ∀ (i : Nat) (a : CtorResult), i + n ≤ NUM_COMMAND_FRAMES → CtorFences i fm0 a →
    match ctor_slots d n i a with
    | .next b => CtorFences (i + n) fm0 b
    | .ret _ => True := by
  induction n with
  | zero => intro i a _ h; simpa only [ctor_slots] using h
  | succ n ih =>
    intro i a hin h
    have hs := ctor_slot_fences d i fm0 a (by omega) h
    simp only [ctor_slots]
    cases hslot : ctor_slot d i a with
    | ret b => trivial
    | next b =>
      rw [hslot] at hs
      have hrec := ih (i + 1) b (by omega) hs
      simp only
      cases hrest : ctor_slots d n (i + 1) b with
      | ret c => trivial
      | next c =>
        rw [hrest] at hrec
        have : i + 1 + n = i + (n + 1) := by omega
        rw [this] at hrec
        exact hrec

/-- After a successful construction every slot's fence is signaled, whatever the
fences were before. -/
theorem construct_fences_signaled (self : Nat) (device : device_impl)
    (queue_family_index : Nat) (queue : Handle) (last : Option Nat) (d : CtorDriver)
    (fm0 : FenceMap) (hok : d.all_checked_ok) :
    ∀ j, j < NUM_COMMAND_FRAMES →
      fence_run fm0 (construct self device queue_family_index queue last d).trace
        (idx (construct self device queue_family_index queue last d).state._cmd_fences j) =
        .signaled := by
  obtain ⟨hp, hb, hfences, hsems, hbeg⟩ := hok
  have hpend := ctorPending_after_buffers self device queue_family_index queue last d hp hb
  have hspec := ctor_slots_spec d NUM_COMMAND_FRAMES 0 _ hpend
  have hinit : CtorFences 0 fm0
      ⟨{ ctor_init self device queue last with
          _cmd_pool := d.CreateCommandPool.2, _cmd_buffers := d.AllocateCommandBuffers.2 },
        [⟨.CreateCommandPool device._orig VK_COMMAND_POOL_CREATE_RESET_COMMAND_BUFFER_BIT
            queue_family_index d.CreateCommandPool.2, d.CreateCommandPool.1⟩] ++
        [⟨.AllocateCommandBuffers device._orig d.CreateCommandPool.2
            VK_COMMAND_BUFFER_LEVEL_PRIMARY NUM_COMMAND_FRAMES d.AllocateCommandBuffers.2,
            d.AllocateCommandBuffers.1⟩], []⟩ :=
    ⟨by simp [ctor_init], fun j hj => absurd hj (Nat.not_lt_zero j)⟩
  have hloop := ctor_slots_fences d fm0 NUM_COMMAND_FRAMES 0 _ (by omega) hinit
  unfold construct
  rw [if_neg (not_not.2 hp), if_neg (not_not.2 hb)]
  cases hrunloop : ctor_slots d NUM_COMMAND_FRAMES 0
    ⟨{ ctor_init self device queue last with
        _cmd_pool := d.CreateCommandPool.2, _cmd_buffers := d.AllocateCommandBuffers.2 },
      [⟨.CreateCommandPool device._orig VK_COMMAND_POOL_CREATE_RESET_COMMAND_BUFFER_BIT
          queue_family_index d.CreateCommandPool.2, d.CreateCommandPool.1⟩] ++
      [⟨.AllocateCommandBuffers device._orig d.CreateCommandPool.2
          VK_COMMAND_BUFFER_LEVEL_PRIMARY NUM_COMMAND_FRAMES d.AllocateCommandBuffers.2,
          d.AllocateCommandBuffers.1⟩], []⟩ with
  | ret b =>
    rw [hrunloop] at hspec
    obtain ⟨-, j, -, hj, hfail⟩ := hspec
    rcases hfail with hfail | hfail
    · exact absurd (hfences j (by simpa using hj)) hfail
    · exact absurd (hsems j (by simpa using hj)) hfail
  | next b =>
    rw [hrunloop] at hloop
    simp only
    rw [if_neg (not_not.2 hbeg)]
    have hfin := ctorFences_push (0 + NUM_COMMAND_FRAMES) fm0 b
      ⟨.BeginCommandBuffer (idx b.state._cmd_buffers b.state._cmd_index)
        VK_COMMAND_BUFFER_USAGE_ONE_TIME_SUBMIT_BIT, d.BeginCommandBuffer⟩
      { b.state with
        _orig := idx b.state._cmd_buffers b.state._cmd_index
        s_last_immediate_command_list := some b.state.self }
      b.log hloop rfl rfl
    intro j hj
    exact hfin.2 j (by simpa using hj)

theorem flush_rotate_trace_form (s : command_list_immediate_impl)
    (semaphore_info submit_info : VkSubmitInfo) (d : FlushDriver) (pre : List Event) :
    ∃ rest, (∀ e ∈ rest, e.call.touchesFences = false) ∧
      rest.getLast? =
        some ⟨.BeginCommandBuffer (idx s._cmd_buffers ((s._cmd_index + 1) % 4))
          VK_COMMAND_BUFFER_USAGE_ONE_TIME_SUBMIT_BIT, d.BeginCommandBuffer⟩ ∧
      (∀ e ∈ rest.dropLast, e.call.isBegin = false) ∧
      (flush_rotate s semaphore_info submit_info d pre).trace =
        pre ++
          (⟨.GetFenceStatus s._device_impl._orig (idx s._cmd_fences ((s._cmd_index + 1) % 4)),
              d.GetFenceStatus⟩ ::
            ((if d.GetFenceStatus = VK_NOT_READY then
                [⟨.WaitForFences s._device_impl._orig
                    [idx s._cmd_fences ((s._cmd_index + 1) % 4)] VK_TRUE UINT64_MAX,
                  d.WaitForFences⟩]
              else []) ++ rest)) := by
  unfold flush_rotate
  simp only [idx_cursor_mod]
  by_cases hk : s._device_impl.KHR_push_descriptor = true
  · refine ⟨[⟨.BeginCommandBuffer (idx s._cmd_buffers ((s._cmd_index + 1) % 4))
        VK_COMMAND_BUFFER_USAGE_ONE_TIME_SUBMIT_BIT, d.BeginCommandBuffer⟩], ?_, rfl, ?_, ?_⟩
    · intro e he
      simp at he; subst he; rfl
    · intro e he
      simp at he
    · by_cases hb : d.BeginCommandBuffer = VK_SUCCESS <;>
      by_cases hg : d.GetFenceStatus = VK_NOT_READY <;>
      simp [hb, hg, hk]
  · refine ⟨[⟨.ResetDescriptorPool s._device_impl._orig
          (idx s._transient_descriptor_pool ((s._cmd_index + 1) % 4)) 0, d.ResetDescriptorPool⟩,
        ⟨.BeginCommandBuffer (idx s._cmd_buffers ((s._cmd_index + 1) % 4))
          VK_COMMAND_BUFFER_USAGE_ONE_TIME_SUBMIT_BIT, d.BeginCommandBuffer⟩], ?_, rfl, ?_, ?_⟩
    · intro e he
      simp at he
      rcases he with rfl | rfl <;> rfl
    · intro e he
      simp at he
      subst he
      rfl
    · by_cases hb : d.BeginCommandBuffer = VK_SUCCESS <;>
      by_cases hg : d.GetFenceStatus = VK_NOT_READY <;>
      simp [hb, hg, hk]

/-- When the rotation step gets a usable answer about the fence of the slot it
rotates to, that fence is signaled once the step has run, whatever the fences
were before. -/
theorem flush_rotate_fences (s : command_list_immediate_impl)
    (semaphore_info submit_info : VkSubmitInfo) (d : FlushDriver) (pre : List Event)
    (fm : FenceMap)
    (hok : d.GetFenceStatus = VK_SUCCESS ∨
      (d.GetFenceStatus = VK_NOT_READY ∧ d.WaitForFences = VK_SUCCESS)) :
    fence_run fm (flush_rotate s semaphore_info submit_info d pre).trace
      (idx s._cmd_fences ((s._cmd_index + 1) % 4)) = .signaled := by
  obtain ⟨rest, hrest, -, -, hform⟩ :=
    flush_rotate_trace_form s semaphore_info submit_info d pre
  rw [hform, fence_run_append, fence_run_cons, fence_run_append,
    fence_run_of_not_touching rest _ hrest]
  rcases hok with hs | ⟨hn, hw⟩
  · have hne : d.GetFenceStatus ≠ VK_NOT_READY := by rw [hs]; decide
    rw [if_neg hne]
    simp [fence_run, fence_step, hs]
  · rw [if_pos hn]
    simp [fence_run, fence_step, hw]

/-- One `flush` whose rotation gets a usable answer about the next slot's fence
keeps the cursor inside the ring and its slot's fence out of flight. -/
theorem flush_fence_invariant (s : command_list_immediate_impl) (fm : FenceMap)
    (semaphore_info : VkSubmitInfo) (d : FlushDriver) (hc : s._cmd_index < NUM_COMMAND_FRAMES)
    (hinv : fm (idx s._cmd_fences s._cmd_index) ≠ .in_flight)
    (hallowed : ¬ rotation_fence_error s d) :
    (flush s semaphore_info d).state._cmd_index < NUM_COMMAND_FRAMES ∧
    fence_run fm (flush s semaphore_info d).trace
      (idx (flush s semaphore_info d).state._cmd_fences
        (flush s semaphore_info d).state._cmd_index) ≠ .in_flight := by
  by_cases h : s._has_commands = true
  · by_cases he : d.EndCommandBuffer = VK_SUCCESS
    · by_cases hs : d.QueueSubmit = VK_SUCCESS
      · have hok : d.GetFenceStatus = VK_SUCCESS ∨
            (d.GetFenceStatus = VK_NOT_READY ∧ d.WaitForFences = VK_SUCCESS) := by
          by_contra hno
          exact hallowed ⟨h, he, hs, hno⟩
        rw [flush_success_path s semaphore_info d h he hs]
        have hsig := flush_rotate_fences
          { s with s_last_immediate_command_list := some s.self, _has_commands := false }
          semaphore_info
          (flush_submit_info
            { s with s_last_immediate_command_list := some s.self, _has_commands := false }
            semaphore_info) d
          [⟨.EndCommandBuffer s._orig, d.EndCommandBuffer⟩,
           ⟨.ResetFences s._device_impl._orig [idx s._cmd_fences s._cmd_index], d.ResetFences⟩,
           ⟨.QueueSubmit s._parent_queue
              [flush_submit_info
                { s with s_last_immediate_command_list := some s.self, _has_commands := false }
                semaphore_info]
              (idx s._cmd_fences s._cmd_index), d.QueueSubmit⟩] fm hok
        obtain ⟨h1, -, -, h4, -, -, -⟩ := flush_rotate_state
          { s with s_last_immediate_command_list := some s.self, _has_commands := false }
          semaphore_info
          (flush_submit_info
            { s with s_last_immediate_command_list := some s.self, _has_commands := false }
            semaphore_info) d
          [⟨.EndCommandBuffer s._orig, d.EndCommandBuffer⟩,
           ⟨.ResetFences s._device_impl._orig [idx s._cmd_fences s._cmd_index], d.ResetFences⟩,
           ⟨.QueueSubmit s._parent_queue
              [flush_submit_info
                { s with s_last_immediate_command_list := some s.self, _has_commands := false }
                semaphore_info]
              (idx s._cmd_fences s._cmd_index), d.QueueSubmit⟩]
        rw [h1, h4]
        refine ⟨Nat.mod_lt _ (by decide), ?_⟩
        rw [hsig]
        decide
      · rw [flush_submit_failure s semaphore_info d h he hs]
        refine ⟨hc, ?_⟩
        show fence_run fm _ (idx s._cmd_fences s._cmd_index) ≠ .in_flight
        by_cases hr : d.ResetFences = VK_SUCCESS
        · simp [fence_run, fence_step, hs, hr]
        · simpa [fence_run, fence_step, hs, hr] using hinv
    · rw [flush_close_failure s semaphore_info d h he]
      rw [fence_run_of_not_touching _ _
        (by intro e hm; simp at hm; rcases hm with rfl | rfl <;> rfl)]
      exact ⟨hc, hinv⟩
  · have h0 : s._has_commands = false := by simpa using h
    rw [flush_of_not_has_commands s h0]
    exact ⟨hc, hinv⟩

theorem flush_and_wait_fence_invariant (s : command_list_immediate_impl) (fm : FenceMap)
    (d : FlushDriver) (wait : VkResult) (hc : s._cmd_index < NUM_COMMAND_FRAMES)
    (hinv : fm (idx s._cmd_fences s._cmd_index) ≠ .in_flight)
    (hallowed : ¬ rotation_fence_error s d) :
    (flush_and_wait s d wait).state._cmd_index < NUM_COMMAND_FRAMES ∧
    fence_run fm (flush_and_wait s d wait).trace
      (idx (flush_and_wait s d wait).state._cmd_fences
        (flush_and_wait s d wait).state._cmd_index) ≠ .in_flight := by
  obtain ⟨hc2, hinv2⟩ := flush_fence_invariant s fm {} d hc hinv hallowed
  unfold flush_and_wait
  by_cases h : s._has_commands = true
  · by_cases hr : (flush s {} d).ret = true
    · simp only [h, hr, Bool.not_true, Bool.false_eq_true, if_false]
      refine ⟨hc2, ?_⟩
      rw [fence_run_append]
      by_cases hw : wait = VK_SUCCESS
      · simp only [fence_run, List.foldl_cons, List.foldl_nil, fence_step, hw, if_true]
        intro hcontra
        by_cases hsame : idx (flush s {} d).state._cmd_fences (flush s {} d).state._cmd_index =
            idx (flush s {} d).state._cmd_fences s._cmd_index
        · rw [hsame] at hcontra
          simp at hcontra
        · rw [Function.update_noteq hsame] at hcontra
          exact hinv2 hcontra
      · simp only [fence_run, List.foldl_cons, List.foldl_nil, fence_step, hw, if_false]
        exact hinv2
    · have hr0 : (flush s {} d).ret = false := by simpa using hr
      simp only [h, hr0, Bool.not_true, Bool.not_false, Bool.false_eq_true, if_false, if_true]
      exact ⟨hc2, hinv2⟩
  · have h0 : s._has_commands = false := by simpa using h
    simp only [h0, Bool.not_false, if_true]
    exact ⟨hc, hinv⟩

theorem reachable_cursor_fence (s : command_list_immediate_impl) (fm : FenceMap)
    (h : ReachableWithFences (fun s d => ¬ rotation_fence_error s d) s fm) :
    s._cmd_index < NUM_COMMAND_FRAMES ∧ fm (idx s._cmd_fences s._cmd_index) ≠ .in_flight := by
  induction h with
  | construct self device queue_family_index queue last d fm0 hok =>
    have hidx := (construct_ready_orig self device queue_family_index queue last d hok).1
    have hsig := construct_fences_signaled self device queue_family_index queue last d fm0
      hok 0 (by decide)
    rw [hidx]
    refine ⟨by decide, ?_⟩
    rw [hsig]
    decide
  | record s fm _ ih => exact ih
  | complete s fm f _ _ ih =>
    refine ⟨ih.1, ?_⟩
    by_cases hf : idx s._cmd_fences s._cmd_index = f
    · rw [hf]; simp
    · rw [Function.update_noteq hf]; exact ih.2
  | flush s fm semaphore_info d _ hallowed ih =>
    exact flush_fence_invariant s fm semaphore_info d ih.1 ih.2 hallowed
  | flush_and_wait s fm d wait _ hallowed ih =>
    exact flush_and_wait_fence_invariant s fm d wait ih.1 ih.2 hallowed

theorem in_flight_count_le (s : command_list_immediate_impl) (fm : FenceMap)
    (hc : s._cmd_index < NUM_COMMAND_FRAMES)
    (hinv : fm (idx s._cmd_fences s._cmd_index) ≠ .in_flight) :
    in_flight_count s fm ≤ NUM_COMMAND_FRAMES - 1 := by
  unfold in_flight_count
  have hlt : ((List.range NUM_COMMAND_FRAMES).filter
      fun i => decide (fm (idx s._cmd_fences i) = .in_flight)).length <
      (List.range NUM_COMMAND_FRAMES).length :=
    List.length_filter_lt_length_iff_exists.2
      ⟨s._cmd_index, List.mem_range.2 hc, by simpa using hinv⟩
  rw [List.length_range] at hlt
  omega



theorem sample_after_three_reachable
    (allowed : command_list_immediate_impl → FlushDriver → Prop)
    (h1 : allowed (record sample_state) sample_flush_ok)
    (h2 : allowed (record (sample_cycle (sample_state, sample_fences) sample_flush_ok).1)
      sample_flush_ok)
    (h3 : allowed
      (record (sample_cycle (sample_cycle (sample_state, sample_fences) sample_flush_ok)
        sample_flush_ok).1) sample_flush_ok) :
    ReachableWithFences allowed sample_after_three.1 sample_after_three.2 :=
  ReachableWithFences.flush _ _ {} sample_flush_ok
    (ReachableWithFences.record _ _
      (ReachableWithFences.flush _ _ {} sample_flush_ok
        (ReachableWithFences.record _ _
          (ReachableWithFences.flush _ _ {} sample_flush_ok
            (ReachableWithFences.record _ _
              (ReachableWithFences.construct 100 sample_device 0 2 none sample_ctor_driver
                (fun _ => .unsignaled) (by decide)))
            h1))
        h2))
    h3

end reshade.vulkan
